import Mathlib

/-!
Verification of the swapchain engine of the vulkan-wsi-layer repository.

The definitions below are a shallow embedding of the C++ sources:
  - src/wsi/swapchain_base.cpp / .hpp   (swapchain core state machine)
  - src/wsi/headless/swapchain.cpp      (headless back-end presenter)
  - src/wsi/x11/swapchain.cpp           (X11 back-end, get_free_buffer / destroy_image)
  - src/wsi/extensions/swapchain_maintenance.cpp (present-mode switching)

Machine integers are modelled as Nat; Vulkan handles as Option Nat (none is
VK_NULL_HANDLE); fallible operations return a VkResult paired with the new
state; operations that can block forever return an Option, where none models
a wait that never completes.
-/

namespace WsiLayer

/-- Subset of VkResult codes used by the swapchain engine. -/
inductive VkResult where
  | success
  | notReady
  | timeout
  | incomplete
  | errorOutOfHostMemory
  | errorOutOfDeviceMemory
  | errorInitializationFailed
  | errorSurfaceLost
  | errorOutOfDate
  | errorDeviceLost
deriving DecidableEq, Repr

/-- VkPresentModeKHR values that the layer distinguishes. -/
inductive VkPresentMode where
  | immediate
  | mailbox
  | fifo
  | fifoRelaxed
  | sharedDemandRefresh
  | sharedContinuousRefresh
deriving DecidableEq, Repr

/-- The status enum of wsi::swapchain_image (swapchain_base.hpp). -/
inductive image_status where
  | INVALID
  | ACQUIRED
  | PENDING
  | PRESENTED
  | FREE
  | UNALLOCATED
deriving DecidableEq, Repr

/-- The headless back-end's per-image data (headless/swapchain.cpp, struct
image_data): device memory backing the image and the present fence_sync.
The record-level effect is all we model: whether memory is allocated and
whether the fence has been initialized. -/
structure image_data where
  memory : Bool
  present_fence : Bool
deriving DecidableEq, Repr

/-- One wsi::swapchain_image record (swapchain_base.hpp). The semaphore
handles held by the record are not observable by any claim and are omitted. -/
structure swapchain_image where
  data : Option image_data
  image : Option Nat
  status : image_status
deriving DecidableEq, Repr

instance : Inhabited swapchain_image :=
  ⟨{ data := none, image := none, status := image_status.INVALID }⟩

/-- wsi::pending_present_request (swapchain_base.hpp). -/
structure pending_present_request where
  image_index : Nat
  present_id : Nat
deriving DecidableEq, Repr

/-- UINT64_MAX, the sentinel timeout meaning wait indefinitely. -/
def UINT64_MAX : Nat := 2 ^ 64 - 1

/- ------------------------------------------------------------------ -/
/- VK_EXT_swapchain_maintenance1 (src/wsi/extensions/swapchain_maintenance) -/
/- ------------------------------------------------------------------ -/

/-- State of wsi::wsi_ext_swapchain_maintenance1: the compatible present
modes recorded at swapchain creation and the current present mode. -/
structure wsi_ext_swapchain_maintenance1 where
  m_present_modes : List VkPresentMode
  m_present_mode : VkPresentMode
deriving DecidableEq, Repr

/-- wsi_ext_swapchain_maintenance1::handle_switching_presentation_mode
(swapchain_maintenance.cpp lines 46-58): find the requested mode in
m_present_modes; if absent return VK_ERROR_SURFACE_LOST_KHR leaving the
state unchanged, otherwise store it as the current mode and succeed. -/
def handle_switching_presentation_mode (ext : wsi_ext_swapchain_maintenance1)
    (swapchain_present_mode : VkPresentMode) : VkResult × wsi_ext_swapchain_maintenance1 :=
  match ext.m_present_modes.find? (fun p => p = swapchain_present_mode) with
  | none => (VkResult.errorSurfaceLost, ext)
  | some _ => (VkResult.success, { ext with m_present_mode := swapchain_present_mode })

/- ------------------------------------------------------------------ -/
/- Spec-modelled utility components (their headers are not under src/) -/
/- ------------------------------------------------------------------ -/

/-- Modelled from the spec: util/timed_semaphore.hpp is not under src/; the
spec describes a counting semaphore with a timed wait. Usage in
swapchain_base.cpp fixes the result protocol: wait with timeout 0 on an
empty semaphore returns VK_NOT_READY (wait_for_free_buffer lines 741-762),
a wait with a positive timeout that expires returns VK_TIMEOUT
(page_flip_thread line 94). A successful wait consumes one token.
arrivals models the number of tokens posted by other threads while this
wait is blocked; a wait with timeout UINT64_MAX and no token ever
available blocks forever, modelled by the result none. -/
def timed_semaphore_wait (count : Nat) (timeout : Nat) (arrivals : Nat) :
    Option (VkResult × Nat) :=
  if 0 < count then some (VkResult.success, count - 1)
  else if timeout = 0 then some (VkResult.notReady, count)
  else if 0 < arrivals then some (VkResult.success, count + arrivals - 1)
  else if timeout = UINT64_MAX then none
  else some (VkResult.timeout, count)

/-- Modelled from the spec: util/ring_buffer.hpp is not under src/; the spec
describes a fixed-capacity single-producer/single-consumer FIFO. push_back
fails (returns none) when the buffer already holds capacity elements. -/
def ring_buffer_push_back (capacity : Nat) (buf : List pending_present_request)
    (x : pending_present_request) : Option (List pending_present_request) :=
  if buf.length < capacity then some (buf ++ [x]) else none

/-- Modelled from the spec: pop_front of the ring buffer returns the oldest
element, or none when the buffer is empty. -/
def ring_buffer_pop_front (buf : List pending_present_request) :
    Option (pending_present_request × List pending_present_request) :=
  match buf with
  | [] => none
  | x :: rest => some (x, rest)

/-- Replace element i of a list by f applied to it; out-of-range is a no-op. -/
def modify_nth (f : swapchain_image → swapchain_image) :
    List swapchain_image → Nat → List swapchain_image
  | [], _ => []
  | x :: rest, 0 => f x :: rest
  | x :: rest, n + 1 => x :: modify_nth f rest n

/- ------------------------------------------------------------------ -/
/- Swapchain core state (swapchain_base.hpp data members)              -/
/- ------------------------------------------------------------------ -/

/-- The observable state of a wsi::swapchain_base instance (headless
back-end). Semaphores are modelled by their counts, the ring buffer by the
list of queued records (oldest first). has_descendant_started_presenting()
dereferences the descendant swapchain's m_started_presenting flag; the
combined boolean is carried here as descendant_started_presenting.
presented_log records, oldest first, every pending-present record handed to
the back-end presenter (present_image), and start_present_posts the number
of sem_post calls on m_start_present_semaphore. -/
structure swapchain_state where
  images : List swapchain_image
  m_free_image_semaphore : Nat
  m_page_flip_semaphore : Nat
  m_pending_buffer_pool : List pending_present_request
  pool_capacity : Nat
  m_present_mode : VkPresentMode
  m_error_state : VkResult
  m_started_presenting : Bool
  m_page_flip_thread_run : Bool
  m_first_present : Bool
  descendant_started_presenting : Bool
  presented_log : List pending_present_request
  start_present_posts : Nat
deriving DecidableEq, Repr

/-- swapchain_base::unpresent_image (swapchain_base.cpp lines 184-205):
in the shared present modes the image returns to ACQUIRED and the
free-image semaphore is not posted; otherwise it becomes FREE and the
free-image semaphore is posted once. -/
def unpresent_image (s : swapchain_state) (presented_index : Nat) : swapchain_state :=
  let set_status (st : image_status) : List swapchain_image :=
    modify_nth (fun img => { img with status := st }) s.images presented_index
  let s :=
    if s.m_present_mode = VkPresentMode.sharedDemandRefresh ∨
        s.m_present_mode = VkPresentMode.sharedContinuousRefresh then
      { s with images := set_status image_status.ACQUIRED }
    else
      { s with images := set_status image_status.FREE }
  if s.m_present_mode ≠ VkPresentMode.sharedDemandRefresh ∧
      s.m_present_mode ≠ VkPresentMode.sharedContinuousRefresh then
    { s with m_free_image_semaphore := s.m_free_image_semaphore + 1 }
  else
    s

/-- headless::swapchain::present_image (headless/swapchain.cpp lines
220-228): submit the record to the back-end (observed in presented_log;
the present-id bookkeeping has no observable state here) and immediately
unpresent the image. -/
def present_image (s : swapchain_state) (pending_present : pending_present_request) :
    swapchain_state :=
  unpresent_image { s with presented_log := s.presented_log ++ [pending_present] }
    pending_present.image_index

/-- swapchain_base::call_present (swapchain_base.cpp lines 125-148): on the
first present wait for the ancestor's pending buffers (a blocking call that
does not change this swapchain's state), post the start-present semaphore
once and clear m_first_present; in every case present the image. -/
def call_present (s : swapchain_state) (pending_present : pending_present_request) :
    swapchain_state :=
  if s.m_first_present then
    present_image
      { s with start_present_posts := s.start_present_posts + 1, m_first_present := false }
      pending_present
  else
    present_image s pending_present

/-- swapchain_base::notify_presentation_engine (swapchain_base.cpp lines
574-605). If the descendant has started presenting, mark the image FREE,
post the free-image semaphore and return VK_ERROR_OUT_OF_DATE_KHR. Otherwise
mark it PENDING, record that presentation has started and either enqueue
the record for the page-flip thread (posting the page-flip semaphore) or,
when the page-flip thread is not running, present directly. The result of
ring_buffer::push_back is discarded by the source (checked only by an
assert), so a full ring leaves the pool unchanged. -/
def notify_presentation_engine (s : swapchain_state)
    (pending_present : pending_present_request) : VkResult × swapchain_state :=
  if s.descendant_started_presenting then
    (VkResult.errorOutOfDate,
      { s with
        images := modify_nth (fun img => { img with status := image_status.FREE })
          s.images pending_present.image_index,
        m_free_image_semaphore := s.m_free_image_semaphore + 1 })
  else
    let s := { s with
      images := modify_nth (fun img => { img with status := image_status.PENDING })
        s.images pending_present.image_index,
      m_started_presenting := true }
    if s.m_page_flip_thread_run then
      let pool := (ring_buffer_push_back s.pool_capacity s.m_pending_buffer_pool
        pending_present).getD s.m_pending_buffer_pool
      (VkResult.success,
        { s with
          m_pending_buffer_pool := pool,
          m_page_flip_semaphore := s.m_page_flip_semaphore + 1 })
    else
      (VkResult.success, call_present s pending_present)

/- ------------------------------------------------------------------ -/
/- Headless presenter (src/wsi/headless/swapchain.cpp)                 -/
/- ------------------------------------------------------------------ -/

/-- headless::swapchain::destroy_image (headless/swapchain.cpp lines
230-257). If the status is not INVALID, destroy the Vulkan image handle
(when non-null) and set the status to INVALID; afterwards, regardless of
the status, free the back-end data block if one is still attached.
x11::swapchain::destroy_image (x11/swapchain.cpp lines 726-752) has the
same record-level effect (its data block holds a pixmap instead of device
memory). -/
def destroy_image (image : swapchain_image) : swapchain_image :=
  let image :=
    if image.status ≠ image_status.INVALID then
      { image with image := none, status := image_status.INVALID }
    else
      image
  if image.data.isSome then { image with data := none } else image

/-- Outcomes of the device and allocator calls made by
headless::swapchain::allocate_and_bind_swapchain_image. data_alloc_ok is
whether m_allocator.create succeeds; the other fields are the results of
vkAllocateMemory, vkBindImageMemory and fence_sync::create. -/
structure alloc_env where
  data_alloc_ok : Bool
  allocate_memory_result : VkResult
  bind_result : VkResult
  fence_create_ok : Bool
deriving DecidableEq, Repr

/-- An alloc_env in which every step succeeds. -/
def alloc_env_ok : alloc_env :=
  { data_alloc_ok := true, allocate_memory_result := VkResult.success,
    bind_result := VkResult.success, fence_create_ok := true }

/-- headless::swapchain::allocate_and_bind_swapchain_image
(headless/swapchain.cpp lines 133-196). If creating the back-end data block
fails, the Vulkan image handle is destroyed device-side (the record's
handle field is not cleared by this path) and VK_ERROR_OUT_OF_HOST_MEMORY
is returned with the record otherwise untouched. Otherwise the data block
is attached and the status set to FREE before memory allocation; a failure
of vkAllocateMemory or vkBindImageMemory propagates its error code after
destroy_image, and a failure to create the present fence returns
VK_ERROR_OUT_OF_HOST_MEMORY after destroy_image. -/
def allocate_and_bind_swapchain_image (env : alloc_env) (image : swapchain_image) :
    VkResult × swapchain_image :=
  if env.data_alloc_ok = false then
    (VkResult.errorOutOfHostMemory, image)
  else
    let image := { image with
      data := some { memory := false, present_fence := false },
      status := image_status.FREE }
    if env.allocate_memory_result ≠ VkResult.success then
      (env.allocate_memory_result, destroy_image image)
    else
      let image := { image with data := some { memory := true, present_fence := false } }
      if env.bind_result ≠ VkResult.success then
        (env.bind_result, destroy_image image)
      else if env.fence_create_ok = false then
        (VkResult.errorOutOfHostMemory, destroy_image image)
      else
        (VkResult.success,
          { image with data := some { memory := true, present_fence := true } })

/- ------------------------------------------------------------------ -/
/- Acquire path (swapchain_base.cpp lines 417-522, 741-762)            -/
/- ------------------------------------------------------------------ -/

/-- The error mapping applied by acquire_next_image to a failed
allocate_and_bind_swapchain_image (swapchain_base.cpp line 439):
VK_ERROR_INITIALIZATION_FAILED becomes VK_ERROR_OUT_OF_HOST_MEMORY, every
other code is passed through. -/
def map_acquire_alloc_error (res : VkResult) : VkResult :=
  if res ≠ VkResult.errorInitializationFailed then res else VkResult.errorOutOfHostMemory

/-- The image-selection loop of swapchain_base::acquire_next_image
(swapchain_base.cpp lines 430-449): walk the image array from index 0;
realize any UNALLOCATED image in place (an allocation failure aborts the
call with the mapped error and no selected index); acquire the first image
whose status is then FREE. Returns the result code, the updated image list
and the selected index, if any. -/
def acquire_image_loop (env : alloc_env) :
    List swapchain_image → VkResult × List swapchain_image × Option Nat
  | [] => (VkResult.success, [], none)
  | img :: rest =>
    if img.status = image_status.UNALLOCATED then
      let r := allocate_and_bind_swapchain_image env img
      if r.1 ≠ VkResult.success then
        (map_acquire_alloc_error r.1, r.2 :: rest, none)
      else if r.2.status = image_status.FREE then
        (VkResult.success, { r.2 with status := image_status.ACQUIRED } :: rest, some 0)
      else
        let t := acquire_image_loop env rest
        (t.1, r.2 :: t.2.1, t.2.2.map (· + 1))
    else if img.status = image_status.FREE then
      (VkResult.success, { img with status := image_status.ACQUIRED } :: rest, some 0)
    else
      let t := acquire_image_loop env rest
      (t.1, img :: t.2.1, t.2.2.map (· + 1))

/-- swapchain_base::wait_for_free_buffer (swapchain_base.cpp lines 741-762)
with the headless back-end, whose get_free_buffer override is the base
default (swapchain_base.hpp lines 556-560): return VK_SUCCESS and leave the
timeout unchanged. First a non-blocking probe of the free-image semaphore;
if it reports VK_NOT_READY, call get_free_buffer and then re-wait with the
caller's timeout. none models a wait that blocks forever. -/
def wait_for_free_buffer (s : swapchain_state) (timeout : Nat) (arrivals : Nat) :
    Option (VkResult × swapchain_state) :=
  match timed_semaphore_wait s.m_free_image_semaphore 0 0 with
  | none => none
  | some (retval, count) =>
    if retval = VkResult.notReady then
      match timed_semaphore_wait s.m_free_image_semaphore timeout arrivals with
      | none => none
      | some (retval, count) => some (retval, { s with m_free_image_semaphore := count })
    else
      some (retval, { s with m_free_image_semaphore := count })

/-- swapchain_base::acquire_next_image (swapchain_base.cpp lines 417-522)
for the headless back-end. Wait for a free buffer (propagating a
non-success result); return the sticky error state if set; select an image
with acquire_image_loop; finally signal the caller's fence/semaphore
(sync-FD import or the fallback queue submission), whose combined outcome
is the parameter signal_result. Returns none when the free-buffer wait
blocks forever, otherwise the result code, the state after the call and
the acquired image index, if one was selected. -/
def acquire_next_image (s : swapchain_state) (timeout : Nat) (arrivals : Nat)
    (env : alloc_env) (signal_result : VkResult) :
    Option (VkResult × swapchain_state × Option Nat) :=
  match wait_for_free_buffer s timeout arrivals with
  | none => none
  | some (r, s) =>
    if r ≠ VkResult.success then
      some (r, s, none)
    else if s.m_error_state ≠ VkResult.success then
      some (s.m_error_state, s, none)
    else
      let t := acquire_image_loop env s.images
      let s := { s with images := t.2.1 }
      if t.1 ≠ VkResult.success then
        some (t.1, s, none)
      else if signal_result ≠ VkResult.success then
        some (signal_result, s, t.2.2)
      else
        some (VkResult.success, s, t.2.2)

/- ------------------------------------------------------------------ -/
/- Page-flip thread (swapchain_base.cpp lines 56-123)                  -/
/- ------------------------------------------------------------------ -/

/-- One iteration of swapchain_base::page_flip_thread for a present mode
other than shared-continuous (swapchain_base.cpp lines 90-122). If the
page-flip semaphore wait times out (no token), the iteration changes
nothing. Otherwise consume a token, pop the oldest pending-present record
and wait for its present payload; wait_res is the final result of
image_wait_present after all VK_TIMEOUT retries, so it is never
VK_TIMEOUT. A non-success result sets the sticky error state, posts the
free-image semaphore and drops the record; on success the record is
presented via call_present. -/
def page_flip_iteration (s : swapchain_state) (wait_res : VkResult) : swapchain_state :=
  if s.m_page_flip_semaphore = 0 then
    s
  else
    let s := { s with m_page_flip_semaphore := s.m_page_flip_semaphore - 1 }
    match ring_buffer_pop_front s.m_pending_buffer_pool with
    | none => s
    | some (submit_info, rest) =>
      let s := { s with m_pending_buffer_pool := rest }
      if wait_res = VkResult.success then
        call_present s submit_info
      else
        { s with
          m_error_state := wait_res,
          m_free_image_semaphore := s.m_free_image_semaphore + 1 }

/- ------------------------------------------------------------------ -/
/- get_swapchain_images (swapchain_base.cpp lines 524-562)             -/
/- ------------------------------------------------------------------ -/

/-- The do-while loop of swapchain_base::get_swapchain_images for a
non-null output array: write image handle number current, increment; stop
with VK_SUCCESS when every swapchain image has been written, keep looping
while current is below the supplied count, otherwise stop with
VK_INCOMPLETE. Returns the result, the value written back to the count
out-parameter and the handles written, in order. Note the loop body runs
at least once even when the supplied count is zero (the source only guards
this case with an assert). -/
def get_swapchain_images_loop (images : List swapchain_image) (size supplied current : Nat)
    (written : List (Option Nat)) : VkResult × Nat × List (Option Nat) :=
  let written := written ++ [(images.getD current default).image]
  let c := current + 1
  if c = size then
    (VkResult.success, c, written)
  else if _h : c < supplied then
    get_swapchain_images_loop images size supplied c written
  else
    (VkResult.incomplete, c, written)
termination_by supplied - current
decreasing_by omega

/-- swapchain_base::get_swapchain_images (swapchain_base.cpp lines
524-562). arr_null models a null output array pointer: in that case only
the count out-parameter is written. -/
def get_swapchain_images (images : List swapchain_image) (supplied : Nat)
    (arr_null : Bool) : VkResult × Nat × List (Option Nat) :=
  if arr_null then
    (VkResult.success, images.length, [])
  else
    get_swapchain_images_loop images images.length supplied 0 []

/- ------------------------------------------------------------------ -/
/- x11::swapchain::get_free_buffer (x11/swapchain.cpp lines 688-724)   -/
/- ------------------------------------------------------------------ -/

/-- x11::swapchain::get_free_buffer (x11/swapchain.cpp lines 688-724).
free_image_found() drains externally completed pixmaps and reports whether
some image is FREE; it is abstracted by found_now (its first result) and
found_later (whether a later call, after a condition-variable wait,
reports an image). With timeout 0 the call returns VK_SUCCESS or
VK_NOT_READY without waiting; with timeout UINT64_MAX it waits until an
image is found (blocking forever, modelled as none, when none ever is) or
the present-event thread stops; with a finite timeout an expired wait
returns VK_TIMEOUT. On the waiting paths a success writes 0 back to the
timeout. -/
def x11_get_free_buffer (found_now : Bool) (thread_running : Bool)
    (found_later : Bool) (timeout : Nat) : Option (VkResult × Nat) :=
  if timeout = 0 then
    some (if found_now then VkResult.success else VkResult.notReady, timeout)
  else if timeout = UINT64_MAX then
    if found_now then some (VkResult.success, 0)
    else if thread_running = false then some (VkResult.errorOutOfDate, timeout)
    else if found_later then some (VkResult.success, 0)
    else none
  else
    if found_now then some (VkResult.success, 0)
    else if thread_running = false then some (VkResult.errorOutOfDate, timeout)
    else if found_later then some (VkResult.success, 0)
    else some (VkResult.timeout, timeout)

/- ------------------------------------------------------------------ -/
/- Claim C1: present-mode switching                                    -/
/- ------------------------------------------------------------------ -/

/-- A maintenance1 extension state whose compatible-modes set, recorded at
swapchain creation, is FIFO and FIFO-RELAXED. -/
def c1_example_ext : wsi_ext_swapchain_maintenance1 :=
  { m_present_modes := [VkPresentMode.fifo, VkPresentMode.fifoRelaxed],
    m_present_mode := VkPresentMode.fifo }

/-- Claim C1, counterexample to the claim as stated: switching to IMMEDIATE
when the compatible set is FIFO, FIFO-RELAXED fails with
VK_ERROR_SURFACE_LOST_KHR, not with VK_ERROR_INITIALIZATION_FAILED as the
claim asserts (swapchain_maintenance.cpp line 54). -/
theorem C1_counterexample :
    VkPresentMode.immediate ∉ c1_example_ext.m_present_modes ∧
    (handle_switching_presentation_mode c1_example_ext VkPresentMode.immediate).1 =
      VkResult.errorSurfaceLost ∧
    (handle_switching_presentation_mode c1_example_ext VkPresentMode.immediate).1 ≠
      VkResult.errorInitializationFailed := by
  decide

/-- Claim C1 (amended): a queue-present present-mode switch to a mode that
is not in the compatible-modes set recorded at swapchain creation fails
with the surface-lost error code and leaves the current present mode (and
the whole extension state) unchanged; a switch to a mode in the set
succeeds and the current present mode becomes the requested mode. -/
theorem C1_present_mode_switch (ext : wsi_ext_swapchain_maintenance1)
    (mode : VkPresentMode) :
    (mode ∉ ext.m_present_modes →
      handle_switching_presentation_mode ext mode = (VkResult.errorSurfaceLost, ext)) ∧
    (mode ∈ ext.m_present_modes →
      handle_switching_presentation_mode ext mode =
        (VkResult.success, { ext with m_present_mode := mode })) := by
  constructor
  · intro hnot
    unfold handle_switching_presentation_mode
    have : ext.m_present_modes.find? (fun p => p = mode) = none := by
      apply List.find?_eq_none.mpr
      intro x hx
      simp only [decide_eq_true_eq]
      intro hxm
      exact hnot (hxm ▸ hx)
    rw [this]
  · intro hmem
    unfold handle_switching_presentation_mode
    obtain ⟨y, hy⟩ : ∃ y, ext.m_present_modes.find? (fun p => p = mode) = some y := by
      rcases h : ext.m_present_modes.find? (fun p => p = mode) with _ | y
      · exact absurd (List.find?_eq_none.mp h mode hmem) (by simp)
      · exact ⟨y, rfl⟩
    rw [hy]

/-- Claim C1 witness: the two S5-style concrete instances — switching to
FIFO-RELAXED (listed as compatible) succeeds and records the new mode;
switching to IMMEDIATE (not listed) fails with surface-lost and changes
nothing. -/
theorem C1_present_mode_switch_witness :
    handle_switching_presentation_mode c1_example_ext VkPresentMode.fifoRelaxed =
      (VkResult.success, { c1_example_ext with m_present_mode := VkPresentMode.fifoRelaxed }) ∧
    handle_switching_presentation_mode c1_example_ext VkPresentMode.immediate =
      (VkResult.errorSurfaceLost, c1_example_ext) :=
  ⟨(C1_present_mode_switch c1_example_ext VkPresentMode.fifoRelaxed).2 (by decide),
   (C1_present_mode_switch c1_example_ext VkPresentMode.immediate).1 (by decide)⟩

/- ------------------------------------------------------------------ -/
/- Helper lemmas                                                       -/
/- ------------------------------------------------------------------ -/

/-- Set the status of image i of a list (abbreviation for modify_nth). -/
def set_status_nth (l : List swapchain_image) (i : Nat) (st : image_status) :
    List swapchain_image :=
  modify_nth (fun img => { img with status := st }) l i

theorem modify_nth_length (f : swapchain_image → swapchain_image)
    (l : List swapchain_image) (i : Nat) : (modify_nth f l i).length = l.length := by
  induction l generalizing i with
  | nil => rfl
  | cons x rest ih =>
    cases i with
    | zero => rfl
    | succ n => simpa [modify_nth] using ih n

theorem modify_nth_getD_self (f : swapchain_image → swapchain_image)
    (l : List swapchain_image) (i : Nat) (h : i < l.length) (d : swapchain_image) :
    (modify_nth f l i).getD i d = f (l.getD i d) := by
  induction l generalizing i with
  | nil => simp at h
  | cons x rest ih =>
    cases i with
    | zero => rfl
    | succ n =>
      have hn : n < rest.length := by simpa using h
      simpa [modify_nth] using ih n hn

theorem unpresent_image_presented_log (s : swapchain_state) (i : Nat) :
    (unpresent_image s i).presented_log = s.presented_log := by
  simp only [unpresent_image]
  split <;> split <;> rfl

theorem unpresent_image_pool (s : swapchain_state) (i : Nat) :
    (unpresent_image s i).m_pending_buffer_pool = s.m_pending_buffer_pool := by
  simp only [unpresent_image]
  split <;> split <;> rfl

theorem unpresent_image_page_flip_semaphore (s : swapchain_state) (i : Nat) :
    (unpresent_image s i).m_page_flip_semaphore = s.m_page_flip_semaphore := by
  simp only [unpresent_image]
  split <;> split <;> rfl

theorem unpresent_image_error_state (s : swapchain_state) (i : Nat) :
    (unpresent_image s i).m_error_state = s.m_error_state := by
  simp only [unpresent_image]
  split <;> split <;> rfl

theorem call_present_presented_log (s : swapchain_state) (r : pending_present_request) :
    (call_present s r).presented_log = s.presented_log ++ [r] := by
  simp only [call_present, present_image]
  split <;> rw [unpresent_image_presented_log]

theorem call_present_pool (s : swapchain_state) (r : pending_present_request) :
    (call_present s r).m_pending_buffer_pool = s.m_pending_buffer_pool := by
  simp only [call_present, present_image]
  split <;> rw [unpresent_image_pool]

theorem call_present_page_flip_semaphore (s : swapchain_state) (r : pending_present_request) :
    (call_present s r).m_page_flip_semaphore = s.m_page_flip_semaphore := by
  simp only [call_present, present_image]
  split <;> rw [unpresent_image_page_flip_semaphore]

theorem call_present_error_state (s : swapchain_state) (r : pending_present_request) :
    (call_present s r).m_error_state = s.m_error_state := by
  simp only [call_present, present_image]
  split <;> rw [unpresent_image_error_state]

/- ------------------------------------------------------------------ -/
/- Claim C5: unpresent_image                                           -/
/- ------------------------------------------------------------------ -/

/-- A fully realized image record in the PENDING state. -/
def pending_image : swapchain_image :=
  { data := some { memory := true, present_fence := true },
    image := some 1, status := image_status.PENDING }

/-- A concrete two-image FIFO swapchain state whose images are PENDING. -/
def c5_fifo_state : swapchain_state :=
  { images := [pending_image, pending_image],
    m_free_image_semaphore := 0,
    m_page_flip_semaphore := 2,
    m_pending_buffer_pool := [⟨0, 0⟩, ⟨1, 0⟩],
    pool_capacity := 32,
    m_present_mode := VkPresentMode.fifo,
    m_error_state := VkResult.success,
    m_started_presenting := true,
    m_page_flip_thread_run := true,
    m_first_present := false,
    descendant_started_presenting := false,
    presented_log := [],
    start_present_posts := 0 }

/-- Claim C5 (confirmed): unpresent_image in a shared present mode sets the
image's status to ACQUIRED and does not post the free-image semaphore; in
every other present mode it sets the status to FREE and posts the
free-image semaphore exactly once; and whenever the call posts the
semaphore, the image's resulting status is FREE, never ACQUIRED. -/
theorem C5_unpresent_image (s : swapchain_state) (idx : Nat)
    (hidx : idx < s.images.length) :
    ((s.m_present_mode = VkPresentMode.sharedDemandRefresh ∨
        s.m_present_mode = VkPresentMode.sharedContinuousRefresh) →
      ((unpresent_image s idx).images.getD idx default).status = image_status.ACQUIRED ∧
      (unpresent_image s idx).m_free_image_semaphore = s.m_free_image_semaphore) ∧
    (¬(s.m_present_mode = VkPresentMode.sharedDemandRefresh ∨
        s.m_present_mode = VkPresentMode.sharedContinuousRefresh) →
      ((unpresent_image s idx).images.getD idx default).status = image_status.FREE ∧
      (unpresent_image s idx).m_free_image_semaphore = s.m_free_image_semaphore + 1) ∧
    ((unpresent_image s idx).m_free_image_semaphore ≠ s.m_free_image_semaphore →
      ((unpresent_image s idx).images.getD idx default).status ≠ image_status.ACQUIRED) := by
  by_cases hsh : s.m_present_mode = VkPresentMode.sharedDemandRefresh ∨
      s.m_present_mode = VkPresentMode.sharedContinuousRefresh
  · have hcond : ¬(s.m_present_mode ≠ VkPresentMode.sharedDemandRefresh ∧
        s.m_present_mode ≠ VkPresentMode.sharedContinuousRefresh) := by
      rcases hsh with h | h <;> simp [h]
    have heq : unpresent_image s idx =
        { s with images :=
            modify_nth (fun img => { img with status := image_status.ACQUIRED }) s.images idx } := by
      simp only [unpresent_image, if_pos hsh, if_neg hcond]
    refine ⟨fun _ => ⟨?_, ?_⟩, fun hns => absurd hsh hns, ?_⟩
    · rw [heq]
      dsimp only
      rw [modify_nth_getD_self _ s.images idx hidx default]
    · rw [heq]
    · intro hne
      exact absurd (by rw [heq]) hne
  · have hcond : s.m_present_mode ≠ VkPresentMode.sharedDemandRefresh ∧
        s.m_present_mode ≠ VkPresentMode.sharedContinuousRefresh := by
      constructor <;> { intro h; exact hsh (by simp [h]) }
    have heq : unpresent_image s idx =
        { { s with images :=
              modify_nth (fun img => { img with status := image_status.FREE }) s.images idx } with
          m_free_image_semaphore := s.m_free_image_semaphore + 1 } := by
      simp only [unpresent_image, if_neg hsh, if_pos hcond]
    refine ⟨fun hs => absurd hs hsh, fun _ => ⟨?_, ?_⟩, ?_⟩
    · rw [heq]
      dsimp only
      rw [modify_nth_getD_self _ s.images idx hidx default]
    · rw [heq]
    · intro _
      rw [heq]
      dsimp only
      rw [modify_nth_getD_self _ s.images idx hidx default]
      simp

/-- Claim C5 witness: a concrete two-image FIFO swapchain and a concrete
one-image shared-demand swapchain, evaluated through the theorem. -/
theorem C5_unpresent_image_witness :
    (0 : Nat) < 2 ∧
    ((unpresent_image c5_fifo_state 0).images.getD 0 default).status = image_status.FREE ∧
    (unpresent_image c5_fifo_state 0).m_free_image_semaphore =
      c5_fifo_state.m_free_image_semaphore + 1 :=
  ⟨by decide, ((C5_unpresent_image c5_fifo_state 0 (by decide)).2.1 (by decide)).1,
    ((C5_unpresent_image c5_fifo_state 0 (by decide)).2.1 (by decide)).2⟩

/- ------------------------------------------------------------------ -/
/- Claim C4: notify_presentation_engine                                -/
/- ------------------------------------------------------------------ -/

/-- A fully realized image record in the ACQUIRED state. -/
def acquired_image : swapchain_image :=
  { data := some { memory := true, present_fence := true },
    image := some 1, status := image_status.ACQUIRED }

/-- A fully realized image record in the FREE state. -/
def free_image : swapchain_image :=
  { data := some { memory := true, present_fence := true },
    image := some 1, status := image_status.FREE }

/-- A concrete two-image FIFO swapchain with image 0 ACQUIRED, no
descendant presenting, page-flip thread running. -/
def c4_state : swapchain_state :=
  { images := [acquired_image, free_image],
    m_free_image_semaphore := 1,
    m_page_flip_semaphore := 0,
    m_pending_buffer_pool := [],
    pool_capacity := 32,
    m_present_mode := VkPresentMode.fifo,
    m_error_state := VkResult.success,
    m_started_presenting := false,
    m_page_flip_thread_run := true,
    m_first_present := true,
    descendant_started_presenting := false,
    presented_log := [],
    start_present_posts := 0 }

/-- The same swapchain after its descendant has started presenting. -/
def c4_desc_state : swapchain_state :=
  { c4_state with descendant_started_presenting := true }

/-- Claim C4 (confirmed): when the descendant has started presenting,
notify_presentation_engine marks the (ACQUIRED) image FREE, posts the
free-image semaphore once, enqueues nothing, hands nothing to the
presenter, and returns VK_ERROR_OUT_OF_DATE_KHR; when no descendant has
started presenting, the call succeeds and either marks the image PENDING
and enqueues the record (posting the page-flip semaphore) when the
page-flip thread runs, or presents the record directly when the thread is
disabled. -/
theorem C4_notify_presentation_engine (s : swapchain_state) (r : pending_present_request)
    (hidx : r.image_index < s.images.length)
    (_hst : (s.images.getD r.image_index default).status = image_status.ACQUIRED)
    (hcap : s.m_pending_buffer_pool.length < s.pool_capacity) :
    (s.descendant_started_presenting = true →
      (notify_presentation_engine s r).1 = VkResult.errorOutOfDate ∧
      (((notify_presentation_engine s r).2.images.getD r.image_index default).status =
        image_status.FREE) ∧
      (notify_presentation_engine s r).2.m_free_image_semaphore =
        s.m_free_image_semaphore + 1 ∧
      (notify_presentation_engine s r).2.m_pending_buffer_pool = s.m_pending_buffer_pool ∧
      (notify_presentation_engine s r).2.presented_log = s.presented_log) ∧
    (s.descendant_started_presenting = false →
      (notify_presentation_engine s r).1 = VkResult.success ∧
      (s.m_page_flip_thread_run = true →
        (((notify_presentation_engine s r).2.images.getD r.image_index default).status =
          image_status.PENDING) ∧
        (notify_presentation_engine s r).2.m_pending_buffer_pool =
          s.m_pending_buffer_pool ++ [r] ∧
        (notify_presentation_engine s r).2.m_page_flip_semaphore =
          s.m_page_flip_semaphore + 1 ∧
        (notify_presentation_engine s r).2.presented_log = s.presented_log) ∧
      (s.m_page_flip_thread_run = false →
        (notify_presentation_engine s r).2.presented_log = s.presented_log ++ [r])) := by
  refine ⟨fun hdesc => ?_, fun hdesc => ?_⟩
  · have heq : notify_presentation_engine s r =
        (VkResult.errorOutOfDate,
          { s with
            images := set_status_nth s.images r.image_index image_status.FREE,
            m_free_image_semaphore := s.m_free_image_semaphore + 1 }) := by
      simp [notify_presentation_engine, hdesc, set_status_nth]
    rw [heq]
    refine ⟨rfl, ?_, rfl, rfl, rfl⟩
    dsimp only [set_status_nth]
    rw [modify_nth_getD_self _ s.images r.image_index hidx default]
  · cases hrun : s.m_page_flip_thread_run with
    | true =>
      have hpush : ring_buffer_push_back s.pool_capacity s.m_pending_buffer_pool r =
          some (s.m_pending_buffer_pool ++ [r]) := by
        simp [ring_buffer_push_back, hcap]
      have heq : notify_presentation_engine s r =
          (VkResult.success,
            { s with
              images := set_status_nth s.images r.image_index image_status.PENDING,
              m_started_presenting := true,
              m_pending_buffer_pool := s.m_pending_buffer_pool ++ [r],
              m_page_flip_semaphore := s.m_page_flip_semaphore + 1 }) := by
        simp [notify_presentation_engine, hdesc, hrun, hpush, set_status_nth]
      rw [heq]
      refine ⟨rfl, fun _ => ⟨?_, rfl, rfl, rfl⟩, fun hrf => by simp [hrun] at hrf⟩
      dsimp only [set_status_nth]
      rw [modify_nth_getD_self _ s.images r.image_index hidx default]
    | false =>
      have heq : notify_presentation_engine s r =
          (VkResult.success,
            call_present
              { s with
                images := set_status_nth s.images r.image_index image_status.PENDING,
                m_started_presenting := true } r) := by
        simp [notify_presentation_engine, hdesc, hrun, set_status_nth]
      rw [heq]
      refine ⟨rfl, fun htr => by simp [hrun] at htr, fun _ => ?_⟩
      rw [call_present_presented_log]

/-- Claim C4 witness: on the concrete two-image FIFO swapchain with image 0
ACQUIRED, a present with no descendant presenting succeeds and enqueues the
record; the same present with a descendant presenting frees the image and
returns out-of-date. -/
theorem C4_notify_presentation_engine_witness :
    ((notify_presentation_engine c4_state ⟨0, 7⟩).1 = VkResult.success ∧
      (notify_presentation_engine c4_state ⟨0, 7⟩).2.m_pending_buffer_pool = [⟨0, 7⟩]) ∧
    ((notify_presentation_engine c4_desc_state ⟨0, 7⟩).1 = VkResult.errorOutOfDate ∧
      (notify_presentation_engine c4_desc_state ⟨0, 7⟩).2.m_pending_buffer_pool = []) :=
  ⟨⟨((C4_notify_presentation_engine c4_state ⟨0, 7⟩ (by decide) (by decide) (by decide)).2
        rfl).1,
    (((C4_notify_presentation_engine c4_state ⟨0, 7⟩ (by decide) (by decide) (by decide)).2
        rfl).2.1 rfl).2.1⟩,
   ⟨((C4_notify_presentation_engine c4_desc_state ⟨0, 7⟩ (by decide) (by decide) (by decide)).1
        rfl).1,
    ((C4_notify_presentation_engine c4_desc_state ⟨0, 7⟩ (by decide) (by decide) (by decide)).1
        rfl).2.2.2.1⟩⟩

/- ------------------------------------------------------------------ -/
/- Operations of the swapchain model, and the INVALID-image invariant  -/
/- ------------------------------------------------------------------ -/

/-- The operations that mutate a live swapchain's observable state. -/
inductive swapchain_op where
  | acquire (timeout arrivals : Nat) (env : alloc_env) (signal_result : VkResult)
  | queue_present (r : pending_present_request)
  | release (idx : Nat)
  | page_flip (wait_res : VkResult)
  | deprecate_destroy (idx : Nat)
deriving DecidableEq, Repr

/-- Apply one operation to the swapchain state: acquire_next_image (state
unchanged when its free-buffer wait blocks forever), the
notify_presentation_engine step of queue_present, release_images on one
index (which calls unpresent_image, swapchain_base.cpp lines 764-774), one
page-flip thread iteration, and the destroy_image call that
swapchain_base::deprecate makes on a FREE image (lines 688-700). -/
def apply_op (s : swapchain_state) : swapchain_op → swapchain_state
  | .acquire t a env sig =>
    match acquire_next_image s t a env sig with
    | some (_, s2, _) => s2
    | none => s
  | .queue_present r => (notify_presentation_engine s r).2
  | .release idx => unpresent_image s idx
  | .page_flip w => page_flip_iteration s w
  | .deprecate_destroy idx => { s with images := modify_nth destroy_image s.images idx }

/-- An INVALID image record holds no back-end data. destroy_image is the
only writer of the INVALID status and it frees the data block in the same
call, so every image of a live swapchain satisfies this. -/
def invalid_no_data (img : swapchain_image) : Prop :=
  img.status = image_status.INVALID → img.data = none

instance (img : swapchain_image) : Decidable (invalid_no_data img) := by
  unfold invalid_no_data; infer_instance

theorem destroy_image_status (img : swapchain_image) :
    (destroy_image img).status = image_status.INVALID := by
  by_cases h : img.status = image_status.INVALID <;>
    simp [destroy_image, h] <;> split <;> simp [h]

theorem destroy_image_invalid_no_data (img : swapchain_image) :
    invalid_no_data (destroy_image img) := by
  intro _
  by_cases h : img.status = image_status.INVALID <;>
    rcases hd : img.data with _ | d <;>
    simp [destroy_image, h, hd]

theorem destroy_image_invalid_none_noop (img : swapchain_image)
    (h1 : img.status = image_status.INVALID) (h2 : img.data = none) :
    destroy_image img = img := by
  simp [destroy_image, h1, h2]

theorem allocate_and_bind_invalid_no_data (env : alloc_env) (img : swapchain_image)
    (h : invalid_no_data img) :
    invalid_no_data (allocate_and_bind_swapchain_image env img).2 := by
  unfold allocate_and_bind_swapchain_image
  split
  · exact h
  · split
    · exact destroy_image_invalid_no_data _
    · split
      · exact destroy_image_invalid_no_data _
      · split
        · exact destroy_image_invalid_no_data _
        · intro hcontra
          simp at hcontra

theorem modify_nth_forall (P : swapchain_image → Prop)
    (f : swapchain_image → swapchain_image) (l : List swapchain_image) (i : Nat)
    (hl : ∀ x ∈ l, P x) (hf : ∀ x ∈ l, P (f x)) :
    ∀ x ∈ modify_nth f l i, P x := by
  induction l generalizing i with
  | nil => intro x hx; simp [modify_nth] at hx
  | cons y rest ih =>
    cases i with
    | zero =>
      intro x hx
      rcases List.mem_cons.mp hx with hx | hx
      · exact hx ▸ hf y (by simp)
      · exact hl x (by simp [hx])
    | succ n =>
      intro x hx
      rcases List.mem_cons.mp hx with hx | hx
      · exact hx ▸ hl y (by simp)
      · exact ih n (fun z hz => hl z (by simp [hz])) (fun z hz => hf z (by simp [hz])) x hx

/-- The image list produced by the acquire selection loop keeps the
INVALID-image invariant. -/
theorem acquire_image_loop_invalid_no_data (env : alloc_env)
    (l : List swapchain_image) (hl : ∀ x ∈ l, invalid_no_data x) :
    ∀ x ∈ (acquire_image_loop env l).2.1, invalid_no_data x := by
  induction l with
  | nil => intro x hx; simp [acquire_image_loop] at hx
  | cons img rest ih =>
    have himg : invalid_no_data img := hl img (by simp)
    have hrest : ∀ x ∈ rest, invalid_no_data x := fun x hx => hl x (by simp [hx])
    intro x hx
    unfold acquire_image_loop at hx
    split at hx
    · dsimp only at hx
      split at hx
      · dsimp only at hx
        rcases List.mem_cons.mp hx with hx | hx
        · exact hx ▸ allocate_and_bind_invalid_no_data env img himg
        · exact hrest x hx
      · split at hx
        · dsimp only at hx
          rcases List.mem_cons.mp hx with hx | hx
          · subst hx; intro hcontra; simp at hcontra
          · exact hrest x hx
        · dsimp only at hx
          rcases List.mem_cons.mp hx with hx | hx
          · exact hx ▸ allocate_and_bind_invalid_no_data env img himg
          · exact ih hrest x hx
    · split at hx
      · dsimp only at hx
        rcases List.mem_cons.mp hx with hx | hx
        · subst hx; intro hcontra; simp at hcontra
        · exact hrest x hx
      · dsimp only at hx
        rcases List.mem_cons.mp hx with hx | hx
        · exact hx ▸ himg
        · exact ih hrest x hx

theorem invalid_no_data_set_status (x : swapchain_image) (st : image_status)
    (hst : st ≠ image_status.INVALID) : invalid_no_data { x with status := st } :=
  fun hc => absurd (by simpa using hc) hst

theorem wait_for_free_buffer_shape (s : swapchain_state) (t a : Nat) :
    ∀ r s2, wait_for_free_buffer s t a = some (r, s2) →
      s2 = { s with m_free_image_semaphore := s2.m_free_image_semaphore } := by
  intro r s2 h
  unfold wait_for_free_buffer at h
  split at h
  · cases h
  · split at h
    · split at h
      · cases h
      · have h2 := congrArg Prod.snd (Option.some.inj h)
        dsimp at h2
        rw [← h2]
    · have h2 := congrArg Prod.snd (Option.some.inj h)
      dsimp at h2
      rw [← h2]

theorem acquire_next_image_images (s : swapchain_state) (t a : Nat) (env : alloc_env)
    (sig : VkResult) :
    ∀ r s2 i, acquire_next_image s t a env sig = some (r, s2, i) →
      s2.images = s.images ∨ s2.images = (acquire_image_loop env s.images).2.1 := by
  intro r s2 i h
  unfold acquire_next_image at h
  cases hw : wait_for_free_buffer s t a with
  | none => rw [hw] at h; cases h
  | some pair =>
    obtain ⟨r0, sw⟩ := pair
    have hsw := wait_for_free_buffer_shape s t a r0 sw hw
    have hswi : sw.images = s.images := by rw [hsw]
    rw [hw] at h
    dsimp only at h
    split at h
    · left
      have h2 := congrArg (fun x => x.2.1) (Option.some.inj h)
      dsimp at h2
      rw [← h2, hswi]
    · split at h
      · left
        have h2 := congrArg (fun x => x.2.1) (Option.some.inj h)
        dsimp at h2
        rw [← h2, hswi]
      · split at h
        · right
          have h2 := congrArg (fun x => x.2.1) (Option.some.inj h)
          dsimp at h2
          rw [← h2, hswi]
        · split at h
          · right
            have h2 := congrArg (fun x => x.2.1) (Option.some.inj h)
            dsimp at h2
            rw [← h2, hswi]
          · right
            have h2 := congrArg (fun x => x.2.1) (Option.some.inj h)
            dsimp at h2
            rw [← h2, hswi]

theorem unpresent_image_inv (s : swapchain_state) (i : Nat)
    (h : ∀ x ∈ s.images, invalid_no_data x) :
    ∀ x ∈ (unpresent_image s i).images, invalid_no_data x := by
  unfold unpresent_image
  dsimp only
  split <;> split <;>
    exact modify_nth_forall invalid_no_data _ s.images i h
      (fun x _ => invalid_no_data_set_status x _ (by simp))

theorem call_present_inv (s : swapchain_state) (r : pending_present_request)
    (h : ∀ x ∈ s.images, invalid_no_data x) :
    ∀ x ∈ (call_present s r).images, invalid_no_data x := by
  unfold call_present present_image
  split <;> exact unpresent_image_inv _ r.image_index h

theorem page_flip_iteration_inv (s : swapchain_state) (w : VkResult)
    (h : ∀ x ∈ s.images, invalid_no_data x) :
    ∀ x ∈ (page_flip_iteration s w).images, invalid_no_data x := by
  unfold page_flip_iteration
  split
  · exact h
  · dsimp only
    split
    · exact h
    · split
      · exact call_present_inv _ _ h
      · exact h

theorem notify_presentation_engine_inv (s : swapchain_state)
    (r : pending_present_request) (h : ∀ x ∈ s.images, invalid_no_data x) :
    ∀ x ∈ (notify_presentation_engine s r).2.images, invalid_no_data x := by
  unfold notify_presentation_engine
  split
  · exact modify_nth_forall invalid_no_data _ s.images r.image_index h
      (fun x _ => invalid_no_data_set_status x _ (by simp))
  · dsimp only
    have hmod : ∀ x ∈ modify_nth
        (fun img => { img with status := image_status.PENDING }) s.images r.image_index,
        invalid_no_data x :=
      modify_nth_forall invalid_no_data _ s.images r.image_index h
        (fun x _ => invalid_no_data_set_status x _ (by simp))
    split
    · exact hmod
    · exact call_present_inv _ _ hmod

/-- Every operation of the swapchain model preserves the INVALID-image
invariant: an image whose status is INVALID never carries back-end data.
Freshly created images start INVALID with no data, so the invariant holds
for every reachable image of a swapchain. -/
theorem apply_op_invalid_no_data (s : swapchain_state) (op : swapchain_op)
    (h : ∀ x ∈ s.images, invalid_no_data x) :
    ∀ x ∈ (apply_op s op).images, invalid_no_data x := by
  cases op with
  | acquire t a env sig =>
    dsimp only [apply_op]
    cases hacq : acquire_next_image s t a env sig with
    | none => exact h
    | some trip =>
      obtain ⟨r, s2, i⟩ := trip
      rcases acquire_next_image_images s t a env sig r s2 i hacq with him | him
      · dsimp only; rw [him]; exact h
      · dsimp only; rw [him]; exact acquire_image_loop_invalid_no_data env s.images h
  | queue_present r => exact notify_presentation_engine_inv s r h
  | release idx => exact unpresent_image_inv s idx h
  | page_flip w => exact page_flip_iteration_inv s w h
  | deprecate_destroy idx =>
    exact modify_nth_forall invalid_no_data destroy_image s.images idx h
      (fun x _ => destroy_image_invalid_no_data x)

/- ------------------------------------------------------------------ -/
/- Claim C9: destroy_image on an INVALID image                         -/
/- ------------------------------------------------------------------ -/

/-- Claim C9 (confirmed): for a swapchain image whose status is INVALID —
such an image carries no back-end data, by the invariant proved in
apply_op_invalid_no_data — destroy_image is a no-op leaving the whole
record unchanged, and destroy_image is idempotent on every image record. -/
theorem C9_destroy_image_idempotent (img : swapchain_image)
    (hinv : img.status = image_status.INVALID → img.data = none) :
    (img.status = image_status.INVALID → destroy_image img = img) ∧
    destroy_image (destroy_image img) = destroy_image img := by
  refine ⟨fun h => destroy_image_invalid_none_noop img h (hinv h), ?_⟩
  exact destroy_image_invalid_none_noop (destroy_image img) (destroy_image_status img)
    (destroy_image_invalid_no_data img (destroy_image_status img))

/-- An INVALID image record with no data but a leftover (already destroyed
device-side) handle value. -/
def invalid_image : swapchain_image :=
  { data := none, image := some 2, status := image_status.INVALID }

/-- Claim C9 witness: destroy_image on a concrete INVALID image changes
nothing, and a second application equals the first. -/
theorem C9_destroy_image_idempotent_witness :
    invalid_image.status = image_status.INVALID ∧
    destroy_image invalid_image = invalid_image ∧
    destroy_image (destroy_image invalid_image) = destroy_image invalid_image :=
  ⟨rfl,
   (C9_destroy_image_idempotent invalid_image (fun _ => rfl)).1 rfl,
   (C9_destroy_image_idempotent invalid_image (fun _ => rfl)).2⟩

/- ------------------------------------------------------------------ -/
/- Claim C10: get_swapchain_images                                     -/
/- ------------------------------------------------------------------ -/

theorem drop_map_cons (images : List swapchain_image) (current : Nat)
    (h : current < images.length) :
    (images.drop current).map (fun i => i.image) =
      (images.getD current default).image ::
        (images.drop (current + 1)).map (fun i => i.image) := by
  rw [List.drop_eq_getElem_cons h, List.getD_eq_getElem images default h]
  rfl

theorem gsi_go_success (images : List swapchain_image) (supplied : Nat) :
    ∀ current written, current < images.length → images.length ≤ supplied →
      get_swapchain_images_loop images images.length supplied current written =
        (VkResult.success, images.length,
          written ++ (images.drop current).map (fun i => i.image)) := by
  have main : ∀ fuel current written, images.length - current = fuel →
      current < images.length → images.length ≤ supplied →
      get_swapchain_images_loop images images.length supplied current written =
        (VkResult.success, images.length,
          written ++ (images.drop current).map (fun i => i.image)) := by
    intro fuel
    induction fuel with
    | zero => intro current written hf hc _; omega
    | succ n ih =>
      intro current written hf hc hs
      rw [get_swapchain_images_loop]
      by_cases hcs : current + 1 = images.length
      · simp only [hcs, if_true]
        rw [drop_map_cons images current hc]
        have : images.drop (current + 1) = [] := by
          rw [List.drop_eq_nil_iff]
          omega
        simp [this]
      · have hlt : current + 1 < images.length := by omega
        have hsup : current + 1 < supplied := by omega
        simp only [hcs, if_false, hsup, dif_pos]
        rw [ih (current + 1) (written ++ [(images.getD current default).image])
          (by omega) hlt hs]
        rw [drop_map_cons images current hc]
        simp

  intro current written hc hs
  exact main (images.length - current) current written rfl hc hs

theorem gsi_go_incomplete (images : List swapchain_image) (supplied : Nat) :
    ∀ current written, current < supplied → supplied < images.length →
      get_swapchain_images_loop images images.length supplied current written =
        (VkResult.incomplete, supplied,
          written ++ ((images.drop current).take (supplied - current)).map
            (fun i => i.image)) := by
  have main : ∀ fuel current written, supplied - current = fuel →
      current < supplied → supplied < images.length →
      get_swapchain_images_loop images images.length supplied current written =
        (VkResult.incomplete, supplied,
          written ++ ((images.drop current).take (supplied - current)).map
            (fun i => i.image)) := by
    intro fuel
    induction fuel with
    | zero => intro current written hf hc _; omega
    | succ n ih =>
      intro current written hf hc hs
      have hcl : current < images.length := by omega
      rw [get_swapchain_images_loop]
      have hcs : ¬(current + 1 = images.length) := by omega
      by_cases hdone : current + 1 < supplied
      · simp only [hcs, if_false, hdone, dif_pos]
        rw [ih (current + 1) (written ++ [(images.getD current default).image])
          (by omega) hdone hs]
        have htake : (images.drop current).take (supplied - current) =
            (images.getD current default) ::
              ((images.drop (current + 1)).take (supplied - (current + 1))) := by
          rw [List.drop_eq_getElem_cons hcl, List.getD_eq_getElem images default hcl]
          have : supplied - current = (supplied - (current + 1)) + 1 := by omega
          rw [this]
          rfl
        rw [htake]
        simp
      · have hstop : current + 1 = supplied := by omega
        simp only [hcs, if_false, hdone, dif_neg, not_false_iff]
        have hsc : supplied - current = 1 := by omega
        have htake : (images.drop current).take (supplied - current) =
            [images.getD current default] := by
          rw [hsc, List.drop_eq_getElem_cons hcl, List.getD_eq_getElem images default hcl]
          rfl
        rw [htake, hstop]
        simp

  intro current written hc hs
  exact main (supplied - current) current written rfl hc hs

/-- Claim C10, counterexample to the claim as stated: with a two-image
swapchain and a supplied count of zero, the do-while loop still writes one
handle and sets the count out-parameter to 1 (the source only guards the
zero case with an assert), where the claim requires zero handles written
and a zero count. -/
theorem C10_counterexample :
    (get_swapchain_images [free_image, free_image] 0 false).1 = VkResult.incomplete ∧
    (get_swapchain_images [free_image, free_image] 0 false).2.1 = 1 ∧
    (get_swapchain_images [free_image, free_image] 0 false).2.2 = [free_image.image] := by
  rw [get_swapchain_images]
  rw [if_neg (by simp)]
  rw [get_swapchain_images_loop]
  simp

/-- Claim C10 (amended with a positive supplied count, matching the
source's assert): a null output array reports the image count with
success; a positive supplied count below the image count writes exactly
that many handles, sets the count to the number written and returns
VK_INCOMPLETE; a supplied count at least the image count writes all
handles, sets the count to the image count and returns success. -/
theorem C10_get_swapchain_images (images : List swapchain_image) (supplied : Nat)
    (hpos : 0 < supplied) (himg : 0 < images.length) :
    (get_swapchain_images images supplied true =
      (VkResult.success, images.length, [])) ∧
    (supplied < images.length →
      get_swapchain_images images supplied false =
        (VkResult.incomplete, supplied, (images.take supplied).map (fun i => i.image))) ∧
    (images.length ≤ supplied →
      get_swapchain_images images supplied false =
        (VkResult.success, images.length, images.map (fun i => i.image))) := by
  refine ⟨by rw [get_swapchain_images]; simp, fun hlt => ?_, fun hge => ?_⟩
  · rw [get_swapchain_images, if_neg (by simp)]
    rw [gsi_go_incomplete images supplied 0 [] hpos hlt]
    simp
  · rw [get_swapchain_images, if_neg (by simp)]
    rw [gsi_go_success images supplied 0 [] himg hge]
    simp

/-- Claim C10 witness: a three-image swapchain queried with a null array,
with a supplied count of 2 (incomplete) and with a supplied count of 5
(success), through the theorem. -/
theorem C10_get_swapchain_images_witness :
    (get_swapchain_images [free_image, free_image, free_image] 2 true =
      (VkResult.success, 3, [])) ∧
    (get_swapchain_images [free_image, free_image, free_image] 2 false =
      (VkResult.incomplete, 2, [free_image.image, free_image.image])) ∧
    (get_swapchain_images [free_image, free_image, free_image] 5 false =
      (VkResult.success, 3, [free_image.image, free_image.image, free_image.image])) :=
  ⟨(C10_get_swapchain_images [free_image, free_image, free_image] 2
      (by decide) (by decide)).1,
   (C10_get_swapchain_images [free_image, free_image, free_image] 2
      (by decide) (by decide)).2.1 (by decide),
   (C10_get_swapchain_images [free_image, free_image, free_image] 5
      (by decide) (by decide)).2.2 (by decide)⟩

/- ------------------------------------------------------------------ -/
/- Acquire-loop lemmas shared by C2, C3 and C8                         -/
/- ------------------------------------------------------------------ -/

/-- The lowest index of an image whose status is FREE or UNALLOCATED, as
the spec words it; the selection made by acquire_image_loop is compared
against this. -/
def first_presentable_index : List swapchain_image → Option Nat
  | [] => none
  | img :: rest =>
    if img.status = image_status.FREE ∨ img.status = image_status.UNALLOCATED then
      some 0
    else
      (first_presentable_index rest).map (· + 1)

theorem map_acquire_alloc_error_ne_success (r : VkResult) (h : r ≠ VkResult.success) :
    map_acquire_alloc_error r ≠ VkResult.success := by
  unfold map_acquire_alloc_error
  split
  · exact h
  · simp

theorem allocate_and_bind_success_status (env : alloc_env) (img : swapchain_image)
    (h : (allocate_and_bind_swapchain_image env img).1 = VkResult.success) :
    (allocate_and_bind_swapchain_image env img).2.status = image_status.FREE := by
  unfold allocate_and_bind_swapchain_image at h ⊢
  split at h
  · simp at h
  · split at h
    · simp_all
    · split at h
      · simp_all
      · split at h
        · simp at h
        · simp_all

/-- A single image whose status is neither FREE nor UNALLOCATED is passed
over by the acquire selection loop. -/
theorem acquire_image_loop_busy_cons (env : alloc_env) (x : swapchain_image)
    (l : List swapchain_image)
    (hx : x.status ≠ image_status.FREE ∧ x.status ≠ image_status.UNALLOCATED) :
    acquire_image_loop env (x :: l) =
      ((acquire_image_loop env l).1, x :: (acquire_image_loop env l).2.1,
        (acquire_image_loop env l).2.2.map (· + 1)) := by
  conv_lhs => rw [acquire_image_loop]
  rw [if_neg hx.2, if_neg hx.1]

/-- Images whose status is neither FREE nor UNALLOCATED are passed over by
the acquire selection loop. -/
theorem acquire_image_loop_skips_busy (env : alloc_env) (pre l : List swapchain_image)
    (hpre : ∀ x ∈ pre, x.status ≠ image_status.FREE ∧ x.status ≠ image_status.UNALLOCATED) :
    acquire_image_loop env (pre ++ l) =
      ((acquire_image_loop env l).1, pre ++ (acquire_image_loop env l).2.1,
        (acquire_image_loop env l).2.2.map (· + pre.length)) := by
  induction pre with
  | nil => simp
  | cons x rest ih =>
    have hx := hpre x (by simp)
    have hrest : ∀ y ∈ rest,
        y.status ≠ image_status.FREE ∧ y.status ≠ image_status.UNALLOCATED :=
      fun y hy => hpre y (by simp [hy])
    rw [List.cons_append, acquire_image_loop_busy_cons env x (rest ++ l) hx, ih hrest]
    rcases (acquire_image_loop env l).2.2 with _ | i
    · simp
    · simp
      omega

/-- A selection loop that reports success selects exactly the lowest FREE
or UNALLOCATED index. -/
theorem acquire_image_loop_success_index (env : alloc_env) (l : List swapchain_image)
    (h : (acquire_image_loop env l).1 = VkResult.success) :
    (acquire_image_loop env l).2.2 = first_presentable_index l := by
  induction l with
  | nil => rfl
  | cons img rest ih =>
    unfold acquire_image_loop at h ⊢
    by_cases h1 : img.status = image_status.UNALLOCATED
    · rw [if_pos h1] at h ⊢
      dsimp only at h ⊢
      by_cases h2 : (allocate_and_bind_swapchain_image env img).1 ≠ VkResult.success
      · rw [if_pos h2] at h
        exact absurd h (map_acquire_alloc_error_ne_success _ (by simpa using h2))
      · have hsucc : (allocate_and_bind_swapchain_image env img).1 = VkResult.success := by
          simpa using h2
        have hfree := allocate_and_bind_success_status env img hsucc
        rw [if_neg h2] at h ⊢
        rw [if_pos hfree] at h ⊢
        have : first_presentable_index (img :: rest) = some 0 := by
          unfold first_presentable_index
          rw [if_pos (Or.inr h1)]
        rw [this]
    · rw [if_neg h1] at h ⊢
      by_cases h2 : img.status = image_status.FREE
      · rw [if_pos h2] at h ⊢
        have : first_presentable_index (img :: rest) = some 0 := by
          unfold first_presentable_index
          rw [if_pos (Or.inl h2)]
        rw [this]
      · rw [if_neg h2] at h ⊢
        dsimp only at h ⊢
        have : first_presentable_index (img :: rest) =
            (first_presentable_index rest).map (· + 1) := by
          conv_lhs => rw [first_presentable_index]
          rw [if_neg (by simp [h1, h2])]
        rw [this, ih h]

/-- The selection loop always reports success when every device and
allocator call succeeds. -/
theorem acquire_image_loop_env_ok_success (l : List swapchain_image) :
    (acquire_image_loop alloc_env_ok l).1 = VkResult.success := by
  induction l with
  | nil => rfl
  | cons img rest ih =>
    unfold acquire_image_loop
    by_cases h1 : img.status = image_status.UNALLOCATED
    · rw [if_pos h1]
      dsimp only
      have hsucc : (allocate_and_bind_swapchain_image alloc_env_ok img).1 =
          VkResult.success := by
        unfold allocate_and_bind_swapchain_image alloc_env_ok
        simp
      have hfree := allocate_and_bind_success_status alloc_env_ok img hsucc
      rw [if_neg (by simp [hsucc]), if_pos hfree]
    · rw [if_neg h1]
      by_cases h2 : img.status = image_status.FREE
      · rw [if_pos h2]
      · rw [if_neg h2]
        exact ih

/-- A non-blocking semaphore probe on a positive count always consumes a
token, so wait_for_free_buffer succeeds immediately. -/
theorem wait_for_free_buffer_pos (s : swapchain_state) (t a : Nat)
    (hpos : 0 < s.m_free_image_semaphore) :
    wait_for_free_buffer s t a =
      some (VkResult.success,
        { s with m_free_image_semaphore := s.m_free_image_semaphore - 1 }) := by
  unfold wait_for_free_buffer timed_semaphore_wait
  rw [if_pos hpos]
  simp

/- ------------------------------------------------------------------ -/
/- Claim C2: acquire of an UNALLOCATED image whose realization fails   -/
/- ------------------------------------------------------------------ -/

/-- An UNALLOCATED (deferred-allocation) image record. -/
def unallocated_image : swapchain_image :=
  { data := none, image := some 1, status := image_status.UNALLOCATED }

/-- A one-image deferred-allocation swapchain directly after init: the
image is UNALLOCATED and the free-image semaphore holds one token. -/
def c2_state : swapchain_state :=
  { images := [unallocated_image],
    m_free_image_semaphore := 1,
    m_page_flip_semaphore := 0,
    m_pending_buffer_pool := [],
    pool_capacity := 32,
    m_present_mode := VkPresentMode.fifo,
    m_error_state := VkResult.success,
    m_started_presenting := false,
    m_page_flip_thread_run := true,
    m_first_present := true,
    descendant_started_presenting := false,
    presented_log := [],
    start_present_posts := 0 }

/-- An environment in which vkAllocateMemory fails with
VK_ERROR_OUT_OF_DEVICE_MEMORY. -/
def c2_bad_env : alloc_env :=
  { data_alloc_ok := true, allocate_memory_result := VkResult.errorOutOfDeviceMemory,
    bind_result := VkResult.success, fence_create_ok := true }

/-- Claim C2, counterexample to the claim as stated: on a fresh one-image
deferred swapchain whose realization fails at vkAllocateMemory with
device-memory exhaustion, acquire_next_image returns out-of-DEVICE-memory
(not out-of-host-memory), the free-image semaphore token consumed by the
wait is not given back (the count drops from 1 to 0), and the image is
left INVALID by the destroy_image call in the failure path of
allocate_and_bind_swapchain_image (not UNALLOCATED). -/
theorem C2_counterexample :
    (acquire_next_image c2_state 0 0 c2_bad_env VkResult.success).map (fun x => x.1) =
      some VkResult.errorOutOfDeviceMemory ∧
    VkResult.errorOutOfDeviceMemory ≠ VkResult.errorOutOfHostMemory ∧
    (acquire_next_image c2_state 0 0 c2_bad_env VkResult.success).map
      (fun x => x.2.1.m_free_image_semaphore) = some 0 ∧
    c2_state.m_free_image_semaphore = 1 ∧
    (acquire_next_image c2_state 0 0 c2_bad_env VkResult.success).map
      (fun x => (x.2.1.images.getD 0 default).status) = some image_status.INVALID ∧
    (c2_state.images.getD 0 default).status = image_status.UNALLOCATED := by
  refine ⟨rfl, by decide, rfl, rfl, rfl, rfl⟩

/-- Claim C2 (amended): when acquire_next_image selects an UNALLOCATED
image and the allocate-and-bind realization step fails, the call returns
the realization failure's error code with initialization-failed mapped to
out-of-host-memory (in particular out-of-host-memory when the back-end
record allocation fails); the free-image semaphore token consumed by the
wait is not restored, so the semaphore count is one less than before the
call; and the image's status remains UNALLOCATED exactly when the failure
is the initial back-end record allocation — any later realization failure
leaves the image INVALID. -/
theorem C2_acquire_unallocated_failure (s : swapchain_state)
    (pre rest : List swapchain_image) (img : swapchain_image) (t a c : Nat)
    (env : alloc_env) (sig : VkResult)
    (hsplit : s.images = pre ++ img :: rest)
    (hpre : ∀ x ∈ pre, x.status ≠ image_status.FREE ∧ x.status ≠ image_status.UNALLOCATED)
    (himg : img.status = image_status.UNALLOCATED)
    (hsem : s.m_free_image_semaphore = c + 1)
    (herr : s.m_error_state = VkResult.success)
    (hfail : (allocate_and_bind_swapchain_image env img).1 ≠ VkResult.success) :
    acquire_next_image s t a env sig =
      some (map_acquire_alloc_error (allocate_and_bind_swapchain_image env img).1,
        { s with
          m_free_image_semaphore := c,
          images := pre ++ (allocate_and_bind_swapchain_image env img).2 :: rest },
        none) ∧
    map_acquire_alloc_error (allocate_and_bind_swapchain_image env img).1 ≠
      VkResult.success ∧
    (env.data_alloc_ok = false →
      map_acquire_alloc_error (allocate_and_bind_swapchain_image env img).1 =
        VkResult.errorOutOfHostMemory ∧
      (allocate_and_bind_swapchain_image env img).2.status = image_status.UNALLOCATED) ∧
    (env.data_alloc_ok = true →
      (allocate_and_bind_swapchain_image env img).2.status = image_status.INVALID) := by
  have hloop : acquire_image_loop env s.images =
      (map_acquire_alloc_error (allocate_and_bind_swapchain_image env img).1,
        pre ++ (allocate_and_bind_swapchain_image env img).2 :: rest, none) := by
    rw [hsplit, acquire_image_loop_skips_busy env pre (img :: rest) hpre]
    conv_lhs => rw [acquire_image_loop]
    rw [if_pos himg]
    dsimp only
    rw [if_pos hfail]
    simp
  refine ⟨?_, map_acquire_alloc_error_ne_success _ hfail, fun hda => ?_, fun hda => ?_⟩
  · unfold acquire_next_image
    rw [wait_for_free_buffer_pos s t a (by omega)]
    dsimp only
    rw [if_neg (by simp)]
    rw [if_neg (by simpa using herr)]
    have hsem2 : s.m_free_image_semaphore - 1 = c := by omega
    rw [hsem2, hloop]
    dsimp only
    rw [if_pos (map_acquire_alloc_error_ne_success _ hfail)]
  · constructor
    · unfold allocate_and_bind_swapchain_image
      rw [if_pos hda]
      rfl
    · unfold allocate_and_bind_swapchain_image
      rw [if_pos hda]
      exact himg
  · unfold allocate_and_bind_swapchain_image
    rw [if_neg (by simp [hda])]
    dsimp only
    by_cases ham : env.allocate_memory_result ≠ VkResult.success
    · rw [if_pos ham]
      exact destroy_image_status _
    · rw [if_neg ham]
      by_cases hbr : env.bind_result ≠ VkResult.success
      · rw [if_pos hbr]
        exact destroy_image_status _
      · rw [if_neg hbr]
        by_cases hfc : env.fence_create_ok = false
        · rw [if_pos hfc]
          exact destroy_image_status _
        · exfalso
          apply hfail
          unfold allocate_and_bind_swapchain_image
          rw [if_neg (by simp [hda])]
          dsimp only
          rw [if_neg ham, if_neg hbr, if_neg hfc]

/-- Claim C2 witness: the amended theorem evaluated on the concrete
one-image deferred swapchain with the device-memory failure environment. -/
theorem C2_acquire_unallocated_failure_witness :
    acquire_next_image c2_state 0 0 c2_bad_env VkResult.success =
      some (VkResult.errorOutOfDeviceMemory,
        { c2_state with
          m_free_image_semaphore := 0,
          images := [(allocate_and_bind_swapchain_image c2_bad_env unallocated_image).2] },
        none) ∧
    (allocate_and_bind_swapchain_image c2_bad_env unallocated_image).2.status =
      image_status.INVALID :=
  ⟨(C2_acquire_unallocated_failure c2_state [] [] unallocated_image 0 0 0 c2_bad_env
      VkResult.success rfl (by simp) rfl rfl rfl (by decide)).1,
   (C2_acquire_unallocated_failure c2_state [] [] unallocated_image 0 0 0 c2_bad_env
      VkResult.success rfl (by simp) rfl rfl rfl (by decide)).2.2.2 rfl⟩

/- ------------------------------------------------------------------ -/
/- Claim C3: acquire selects the lowest FREE or UNALLOCATED index      -/
/- ------------------------------------------------------------------ -/

/-- A freshly created (non-deferred) swapchain with n FREE images and n
free-image semaphore tokens, in FIFO mode with no error. -/
def fresh_swapchain (n : Nat) : swapchain_state :=
  { images := List.replicate n free_image,
    m_free_image_semaphore := n,
    m_page_flip_semaphore := 0,
    m_pending_buffer_pool := [],
    pool_capacity := 32,
    m_present_mode := VkPresentMode.fifo,
    m_error_state := VkResult.success,
    m_started_presenting := false,
    m_page_flip_thread_run := true,
    m_first_present := true,
    descendant_started_presenting := false,
    presented_log := [],
    start_present_posts := 0 }

/-- The fresh swapchain after its first k images have been acquired. -/
def mid_state (n k : Nat) : swapchain_state :=
  { fresh_swapchain n with
    images := List.replicate k acquired_image ++ List.replicate (n - k) free_image,
    m_free_image_semaphore := n - k }

/-- Repeatedly call acquire_next_image (timeout 0, all device calls
succeeding), collecting the returned image indices in order. -/
def acquire_run : swapchain_state → Nat → swapchain_state × List (Option Nat)
  | s, 0 => (s, [])
  | s, k + 1 =>
    match acquire_next_image s 0 0 alloc_env_ok VkResult.success with
    | some (_, s2, idx) =>
      let t := acquire_run s2 k
      (t.1, idx :: t.2)
    | none => (s, [])

theorem replicate_append_cons (k : Nat) (a : swapchain_image)
    (l : List swapchain_image) :
    List.replicate k a ++ a :: l = List.replicate (k + 1) a ++ l := by
  rw [List.replicate_succ', List.append_assoc]
  rfl

theorem mid_state_acquire (n k : Nat) (hk : k < n) :
    acquire_next_image (mid_state n k) 0 0 alloc_env_ok VkResult.success =
      some (VkResult.success, mid_state n (k + 1), some k) := by
  obtain ⟨m, hm⟩ : ∃ m, n - k = m + 1 := ⟨n - k - 1, by omega⟩
  have hloop : acquire_image_loop alloc_env_ok (mid_state n k).images =
      (VkResult.success,
        List.replicate (k + 1) acquired_image ++ List.replicate (n - (k + 1)) free_image,
        some k) := by
    show acquire_image_loop alloc_env_ok
        (List.replicate k acquired_image ++ List.replicate (n - k) free_image) = _
    rw [acquire_image_loop_skips_busy alloc_env_ok _ _
      (fun x hx => by rw [List.eq_of_mem_replicate hx]; exact ⟨by simp [acquired_image], by simp [acquired_image]⟩)]
    rw [hm, List.replicate_succ]
    conv_lhs => rw [acquire_image_loop]
    rw [if_neg (by simp [free_image]), if_pos (by simp [free_image])]
    have hacq : ({ free_image with status := image_status.ACQUIRED } : swapchain_image) =
        acquired_image := rfl
    rw [hacq, replicate_append_cons]
    have hmm : m = n - (k + 1) := by omega
    simp [List.length_replicate, hmm]
  unfold acquire_next_image
  rw [wait_for_free_buffer_pos _ 0 0 (by simp [mid_state, fresh_swapchain]; omega)]
  dsimp only
  rw [if_neg (by simp)]
  rw [if_neg (by simp [mid_state, fresh_swapchain])]
  rw [hloop]
  dsimp only
  rw [if_neg (by simp), if_neg (by simp)]
  have hsem : (mid_state n k).m_free_image_semaphore - 1 = n - (k + 1) := by
    simp [mid_state]
    omega
  rw [hsem]
  rfl

theorem acquire_run_mid (n : Nat) :
    ∀ j k, k + j = n →
      acquire_run (mid_state n k) j = (mid_state n n, (List.range' k j).map some) := by
  intro j
  induction j with
  | zero =>
    intro k hk
    have : k = n := by omega
    subst this
    rfl
  | succ m ih =>
    intro k hk
    have hkn : k < n := by omega
    show acquire_run (mid_state n k) (m + 1) = _
    unfold acquire_run
    rw [mid_state_acquire n k hkn]
    dsimp only
    rw [ih (k + 1) (by omega)]
    rw [List.range'_succ]
    rfl

/-- Claim C3 (confirmed): every successful acquire_next_image call returns
the lowest index whose image is FREE or UNALLOCATED at selection time
(first_presentable_index states the spec's wording); and on a freshly
created swapchain with n images, n successive acquires return the indices
0, 1, ..., n-1 in order. -/
theorem C3_acquire_lowest_index :
    (∀ (s : swapchain_state) (t a : Nat) (env : alloc_env) (sig : VkResult)
        (res : VkResult × swapchain_state × Option Nat),
        acquire_next_image s t a env sig = some res →
        res.1 = VkResult.success →
        res.2.2 = first_presentable_index s.images) ∧
    (∀ n : Nat, (acquire_run (fresh_swapchain n) n).2 = (List.range n).map some) := by
  constructor
  · intro s t a env sig res h hsucc
    unfold acquire_next_image at h
    cases hw : wait_for_free_buffer s t a with
    | none => rw [hw] at h; cases h
    | some pair =>
      obtain ⟨r0, sw⟩ := pair
      have hswshape := wait_for_free_buffer_shape s t a r0 sw hw
      have hswim : sw.images = s.images := by rw [hswshape]
      rw [hw] at h
      dsimp only at h
      split at h
      · rename_i hr0
        rw [← Option.some.inj h] at hsucc
        exact absurd hsucc hr0
      · split at h
        · rename_i herr
          rw [← Option.some.inj h] at hsucc
          exact absurd hsucc herr
        · split at h
          · rename_i hloop
            rw [← Option.some.inj h] at hsucc
            exact absurd hsucc hloop
          · split at h
            · rename_i hsig
              rw [← Option.some.inj h] at hsucc
              exact absurd hsucc hsig
            · rename_i hloop hsig
              rw [← Option.some.inj h]
              dsimp only
              rw [hswim] at hloop ⊢
              exact acquire_image_loop_success_index env s.images (by simpa using hloop)
  · intro n
    have h0 : fresh_swapchain n = mid_state n 0 := by
      unfold mid_state fresh_swapchain
      simp
    rw [h0, acquire_run_mid n n 0 (by omega), List.range_eq_range']

/-- Claim C3 witness: on a concrete fresh three-image swapchain, the three
acquires return 0, 1, 2, and the first acquire's selected index equals the
lowest FREE-or-UNALLOCATED index. -/
theorem C3_acquire_lowest_index_witness :
    (acquire_run (fresh_swapchain 3) 3).2 = [some 0, some 1, some 2] ∧
    (acquire_next_image (fresh_swapchain 3) 0 0 alloc_env_ok VkResult.success).map
      (fun res => res.2.2) = some (first_presentable_index (fresh_swapchain 3).images) := by
  constructor
  · rw [(C3_acquire_lowest_index).2 3]
    rfl
  · rcases hacq : acquire_next_image (fresh_swapchain 3) 0 0 alloc_env_ok VkResult.success
      with _ | res
    · exact absurd hacq (by decide)
    · have hsucc : res.1 = VkResult.success := by
        have hval : (acquire_next_image (fresh_swapchain 3) 0 0 alloc_env_ok
            VkResult.success).map (fun x => x.1) = some VkResult.success := by decide
        rw [hacq] at hval
        simpa using hval
      have h1 := (C3_acquire_lowest_index).1 (fresh_swapchain 3) 0 0 alloc_env_ok
        VkResult.success res hacq hsucc
      simp [h1]

/- ------------------------------------------------------------------ -/
/- Claim C8: acquire with timeout 0 / UINT64_MAX and no free image     -/
/- ------------------------------------------------------------------ -/

/-- unpresent_image in a non-shared present mode: the image becomes FREE
and the free-image semaphore is posted. -/
theorem unpresent_image_not_shared (s : swapchain_state) (j : Nat)
    (h : s.m_present_mode ≠ VkPresentMode.sharedDemandRefresh ∧
      s.m_present_mode ≠ VkPresentMode.sharedContinuousRefresh) :
    unpresent_image s j =
      { s with
        images := set_status_nth s.images j image_status.FREE,
        m_free_image_semaphore := s.m_free_image_semaphore + 1 } := by
  have hsh : ¬(s.m_present_mode = VkPresentMode.sharedDemandRefresh ∨
      s.m_present_mode = VkPresentMode.sharedContinuousRefresh) := by
    simp [h.1, h.2]
  simp only [unpresent_image, if_neg hsh, if_pos h, set_status_nth]

/-- In a list of busy (ACQUIRED or PENDING) images, freeing image j makes
j the lowest FREE-or-UNALLOCATED index. -/
theorem first_presentable_set_free (l : List swapchain_image) (j : Nat)
    (hbusy : ∀ x ∈ l, x.status = image_status.ACQUIRED ∨ x.status = image_status.PENDING)
    (hj : j < l.length) :
    first_presentable_index (set_status_nth l j image_status.FREE) = some j := by
  induction l generalizing j with
  | nil => simp at hj
  | cons x rest ih =>
    cases j with
    | zero =>
      show first_presentable_index ({ x with status := image_status.FREE } :: rest) = some 0
      unfold first_presentable_index
      rw [if_pos (Or.inl rfl)]
    | succ m =>
      show first_presentable_index (x :: set_status_nth rest m image_status.FREE) = some (m + 1)
      conv_lhs => rw [first_presentable_index]
      have hx := hbusy x (by simp)
      rw [if_neg (by rcases hx with hx | hx <;> simp [hx])]
      rw [ih m (fun y hy => hbusy y (by simp [hy])) (by simpa using hj)]
      rfl

/-- acquire_next_image with an available token, a clear error state, an
all-successful device environment and a successful signal step: consume
the token, run the selection loop, return the lowest presentable index. -/
theorem acquire_next_image_ok (s2 : swapchain_state) (t a : Nat)
    (hsem2 : 0 < s2.m_free_image_semaphore)
    (herr2 : s2.m_error_state = VkResult.success) :
    acquire_next_image s2 t a alloc_env_ok VkResult.success =
      some (VkResult.success,
        { s2 with
          m_free_image_semaphore := s2.m_free_image_semaphore - 1,
          images := (acquire_image_loop alloc_env_ok s2.images).2.1 },
        first_presentable_index s2.images) := by
  unfold acquire_next_image
  rw [wait_for_free_buffer_pos s2 t a hsem2]
  dsimp only
  rw [if_neg (by simp)]
  rw [if_neg (by simpa using herr2)]
  rw [if_neg (by simpa using acquire_image_loop_env_ok_success s2.images)]
  rw [if_neg (by simp)]
  rw [acquire_image_loop_success_index alloc_env_ok s2.images
    (acquire_image_loop_env_ok_success s2.images)]

/-- Claim C8 (amended): on a swapchain where every image is ACQUIRED or
PENDING and the free-image semaphore is empty, acquire_next_image with
timeout 0 returns VK_NOT_READY (not VK_TIMEOUT: the non-blocking probe and
the zero-timeout re-wait both report not-ready, and the x11 back-end's
get_free_buffer likewise returns VK_NOT_READY for a zero timeout); with
timeout UINT64_MAX and no token ever posted the call blocks forever; and
once an image is freed (unpresent_image posts the token), the blocking
call completes successfully returning the freed image's index. -/
theorem C8_acquire_no_free_images (s : swapchain_state) (a : Nat)
    (env : alloc_env) (sig : VkResult) (j : Nat)
    (hbusy : ∀ x ∈ s.images,
      x.status = image_status.ACQUIRED ∨ x.status = image_status.PENDING)
    (hsem : s.m_free_image_semaphore = 0)
    (herr : s.m_error_state = VkResult.success) :
    (acquire_next_image s 0 a env sig = some (VkResult.notReady, s, none)) ∧
    (acquire_next_image s UINT64_MAX 0 env sig = none) ∧
    (∀ tr fl, x11_get_free_buffer false tr fl 0 = some (VkResult.notReady, 0)) ∧
    ((s.m_present_mode ≠ VkPresentMode.sharedDemandRefresh ∧
        s.m_present_mode ≠ VkPresentMode.sharedContinuousRefresh) →
      j < s.images.length →
      (acquire_next_image (unpresent_image s j) UINT64_MAX 0 alloc_env_ok
        VkResult.success).map (fun res => (res.1, res.2.2)) =
        some (VkResult.success, some j)) := by
  have hs0 : ({ s with m_free_image_semaphore := 0 } : swapchain_state) = s := by
    rw [← hsem]
  refine ⟨?_, ?_, fun tr fl => rfl, fun hmode hj => ?_⟩
  · have hwait : wait_for_free_buffer s 0 a = some (VkResult.notReady, s) := by
      unfold wait_for_free_buffer timed_semaphore_wait
      rw [hsem]
      simp [hs0]
    unfold acquire_next_image
    rw [hwait]
    dsimp only
    rw [if_pos (by simp)]
  · have hU : ¬(UINT64_MAX = 0) := by decide
    have hwait : wait_for_free_buffer s UINT64_MAX 0 = none := by
      unfold wait_for_free_buffer timed_semaphore_wait
      rw [hsem]
      simp [hU]
    unfold acquire_next_image
    rw [hwait]
  · rw [unpresent_image_not_shared s j hmode]
    rw [acquire_next_image_ok _ UINT64_MAX 0 (by simp) (by simpa using herr)]
    have hfp : first_presentable_index
        ({ s with
          images := set_status_nth s.images j image_status.FREE,
          m_free_image_semaphore := s.m_free_image_semaphore + 1 } :
            swapchain_state).images = some j := by
      dsimp only
      exact first_presentable_set_free s.images j hbusy hj
    simp [hfp]

/-- A concrete two-image FIFO swapchain with one image ACQUIRED and one
PENDING: no image is FREE or UNALLOCATED and the semaphore is empty. -/
def c8_state : swapchain_state :=
  { images := [acquired_image, pending_image],
    m_free_image_semaphore := 0,
    m_page_flip_semaphore := 1,
    m_pending_buffer_pool := [⟨1, 0⟩],
    pool_capacity := 32,
    m_present_mode := VkPresentMode.fifo,
    m_error_state := VkResult.success,
    m_started_presenting := true,
    m_page_flip_thread_run := true,
    m_first_present := false,
    descendant_started_presenting := false,
    presented_log := [],
    start_present_posts := 0 }

/-- Claim C8, counterexample to the claim as stated: acquire with timeout
0 on the fully busy swapchain returns VK_NOT_READY, which is not the
VK_TIMEOUT code the claim requires. -/
theorem C8_counterexample :
    (acquire_next_image c8_state 0 0 alloc_env_ok VkResult.success).map (fun x => x.1) =
      some VkResult.notReady ∧
    VkResult.notReady ≠ VkResult.timeout := by
  exact ⟨rfl, by decide⟩

/-- Claim C8 witness: the amended theorem on the concrete busy swapchain;
freeing image 0 lets the blocking acquire return index 0. -/
theorem C8_acquire_no_free_images_witness :
    (acquire_next_image c8_state 0 0 alloc_env_ok VkResult.success =
      some (VkResult.notReady, c8_state, none)) ∧
    (acquire_next_image c8_state UINT64_MAX 0 alloc_env_ok VkResult.success = none) ∧
    ((acquire_next_image (unpresent_image c8_state 0) UINT64_MAX 0 alloc_env_ok
      VkResult.success).map (fun res => (res.1, res.2.2)) =
      some (VkResult.success, some 0)) :=
  ⟨(C8_acquire_no_free_images c8_state 0 alloc_env_ok VkResult.success 0
      (by decide) rfl rfl).1,
   (C8_acquire_no_free_images c8_state 0 alloc_env_ok VkResult.success 0
      (by decide) rfl rfl).2.1,
   (C8_acquire_no_free_images c8_state 0 alloc_env_ok VkResult.success 0
      (by decide) rfl rfl).2.2.2 (by decide) (by decide)⟩

/- ------------------------------------------------------------------ -/
/- Claim C6: the sticky error state                                    -/
/- ------------------------------------------------------------------ -/

/-- A page-flip iteration that observes a fatal present-wait failure sets
the error state to that failure, posts the free-image semaphore once and
hands nothing to the presenter. -/
theorem page_flip_iteration_fatal (s : swapchain_state) (e : VkResult)
    (hsem : 0 < s.m_page_flip_semaphore)
    (hpool : s.m_pending_buffer_pool ≠ [])
    (he : e ≠ VkResult.success) :
    (page_flip_iteration s e).m_error_state = e ∧
    (page_flip_iteration s e).m_free_image_semaphore = s.m_free_image_semaphore + 1 ∧
    (page_flip_iteration s e).presented_log = s.presented_log := by
  obtain ⟨x, rest, hx⟩ : ∃ x rest, s.m_pending_buffer_pool = x :: rest := by
    cases hp : s.m_pending_buffer_pool with
    | nil => exact absurd hp hpool
    | cons x rest => exact ⟨x, rest, rfl⟩
  unfold page_flip_iteration
  rw [if_neg (by omega)]
  dsimp only
  rw [hx]
  dsimp only [ring_buffer_pop_front]
  rw [if_neg he]
  exact ⟨rfl, rfl, rfl⟩

theorem notify_presentation_engine_error_state (s : swapchain_state)
    (r : pending_present_request) :
    (notify_presentation_engine s r).2.m_error_state = s.m_error_state := by
  unfold notify_presentation_engine
  split
  · rfl
  · dsimp only
    split
    · rfl
    · rw [call_present_error_state]

theorem page_flip_iteration_error_state (s : swapchain_state) (w : VkResult) :
    (page_flip_iteration s w).m_error_state = s.m_error_state ∨
    ((page_flip_iteration s w).m_error_state = w ∧ w ≠ VkResult.success) := by
  unfold page_flip_iteration
  split
  · exact Or.inl rfl
  · dsimp only
    split
    · exact Or.inl rfl
    · split
      · rename_i hww
        rw [call_present_error_state]
        exact Or.inl rfl
      · rename_i hww
        exact Or.inr ⟨rfl, hww⟩

theorem acquire_next_image_error_state (s : swapchain_state) (t a : Nat)
    (env : alloc_env) (sig : VkResult) :
    ∀ r s2 i, acquire_next_image s t a env sig = some (r, s2, i) →
      s2.m_error_state = s.m_error_state := by
  intro r s2 i h
  unfold acquire_next_image at h
  cases hw : wait_for_free_buffer s t a with
  | none => rw [hw] at h; cases h
  | some pair =>
    obtain ⟨r0, sw⟩ := pair
    have hshape := wait_for_free_buffer_shape s t a r0 sw hw
    have herr0 : sw.m_error_state = s.m_error_state := by rw [hshape]
    rw [hw] at h
    dsimp only at h
    have hproj : ∀ (v : VkResult × swapchain_state × Option Nat),
        some v = some (r, s2, i) → v.2.1.m_error_state = sw.m_error_state →
        s2.m_error_state = s.m_error_state := by
      intro v hv he
      have h2 := congrArg (fun x => x.2.1) (Option.some.inj hv)
      dsimp at h2
      rw [← h2, he, herr0]
    split at h
    · exact hproj _ h rfl
    · split at h
      · exact hproj _ h rfl
      · split at h
        · exact hproj _ h rfl
        · split at h
          · exact hproj _ h rfl
          · exact hproj _ h rfl

/-- No operation of the model ever writes VK_SUCCESS into the error state:
only init (before any operation) does. -/
theorem apply_op_error_sticky (s : swapchain_state) (op : swapchain_op)
    (h : s.m_error_state ≠ VkResult.success) :
    (apply_op s op).m_error_state ≠ VkResult.success := by
  cases op with
  | acquire t a env sig =>
    dsimp only [apply_op]
    cases hacq : acquire_next_image s t a env sig with
    | none => exact h
    | some trip =>
      obtain ⟨r, s2, i⟩ := trip
      dsimp only
      rw [acquire_next_image_error_state s t a env sig r s2 i hacq]
      exact h
  | queue_present r =>
    show (notify_presentation_engine s r).2.m_error_state ≠ VkResult.success
    rw [notify_presentation_engine_error_state]
    exact h
  | release idx =>
    show (unpresent_image s idx).m_error_state ≠ VkResult.success
    rw [unpresent_image_error_state]
    exact h
  | page_flip w =>
    show (page_flip_iteration s w).m_error_state ≠ VkResult.success
    rcases page_flip_iteration_error_state s w with hc | ⟨hc, hw⟩
    · rw [hc]; exact h
    · rw [hc]; exact hw
  | deprecate_destroy idx => exact h

/-- Claim C6 (amended): a fatal failure observed by the page-flip thread
while waiting for an image's present payload sets the sticky error state
to that fatal error (a later fatal failure overwrites it with the newer
error code) and posts the free-image semaphore; no operation ever resets
the error state to success; and every subsequent acquire_next_image call
whose free-buffer wait succeeds returns the current sticky error without
selecting an image. -/
theorem C6_page_flip_sticky_error (s : swapchain_state) (e : VkResult)
    (op : swapchain_op) (t a : Nat) (env : alloc_env) (sig : VkResult)
    (s1 : swapchain_state)
    (hsem : 0 < s.m_page_flip_semaphore)
    (hpool : s.m_pending_buffer_pool ≠ [])
    (he : e ≠ VkResult.success) :
    ((page_flip_iteration s e).m_error_state = e ∧
      (page_flip_iteration s e).m_free_image_semaphore =
        s.m_free_image_semaphore + 1 ∧
      (page_flip_iteration s e).presented_log = s.presented_log) ∧
    (s.m_error_state ≠ VkResult.success →
      (apply_op s op).m_error_state ≠ VkResult.success) ∧
    (s.m_error_state ≠ VkResult.success →
      wait_for_free_buffer s t a = some (VkResult.success, s1) →
      acquire_next_image s t a env sig = some (s.m_error_state, s1, none)) := by
  refine ⟨page_flip_iteration_fatal s e hsem hpool he,
    apply_op_error_sticky s op, fun herr hw => ?_⟩
  unfold acquire_next_image
  rw [hw]
  dsimp only
  rw [if_neg (by simp)]
  have hs1 : s1.m_error_state = s.m_error_state := by
    rw [wait_for_free_buffer_shape s t a _ s1 hw]
  rw [if_pos (by rw [hs1]; exact herr), hs1]

/-- The state after the page-flip thread has observed two successive fatal
failures (surface-lost, then device-lost) on the two pending presents of
the concrete FIFO swapchain. -/
def c6_two_fatal_state : swapchain_state :=
  page_flip_iteration (page_flip_iteration c5_fifo_state VkResult.errorSurfaceLost)
    VkResult.errorDeviceLost

/-- Claim C6, counterexample to the claim as stated: after a first fatal
failure (surface-lost) a second fatal failure overwrites the sticky error
with device-lost, so the error state is not "the first such fatal error";
a subsequent acquire whose free-buffer wait succeeds returns the newer
error, and an acquire whose wait finds no token returns VK_NOT_READY, not
the sticky error — so not every subsequent acquire returns it. -/
theorem C6_counterexample :
    (page_flip_iteration c5_fifo_state VkResult.errorSurfaceLost).m_error_state =
      VkResult.errorSurfaceLost ∧
    c6_two_fatal_state.m_error_state = VkResult.errorDeviceLost ∧
    VkResult.errorDeviceLost ≠ VkResult.errorSurfaceLost ∧
    (acquire_next_image c6_two_fatal_state 0 0 alloc_env_ok VkResult.success).map
      (fun x => x.1) = some VkResult.errorDeviceLost ∧
    (acquire_next_image { c6_two_fatal_state with m_free_image_semaphore := 0 } 0 0
      alloc_env_ok VkResult.success).map (fun x => x.1) = some VkResult.notReady ∧
    VkResult.notReady ≠ VkResult.errorDeviceLost := by
  exact ⟨rfl, rfl, by decide, rfl, rfl, by decide⟩

/-- A swapchain state with a sticky surface-lost error and one free-image
token. -/
def c6_sticky_state : swapchain_state :=
  { c5_fifo_state with
    m_error_state := VkResult.errorSurfaceLost,
    m_free_image_semaphore := 1 }

/-- Claim C6 witness: the amended theorem on the concrete states — the
first fatal failure is recorded and posts the semaphore, release never
clears a sticky error, and an acquire whose wait succeeds returns the
sticky error. -/
theorem C6_page_flip_sticky_error_witness :
    ((page_flip_iteration c5_fifo_state VkResult.errorSurfaceLost).m_error_state =
      VkResult.errorSurfaceLost ∧
      (page_flip_iteration c5_fifo_state VkResult.errorSurfaceLost).m_free_image_semaphore =
        c5_fifo_state.m_free_image_semaphore + 1 ∧
      (page_flip_iteration c5_fifo_state VkResult.errorSurfaceLost).presented_log =
        c5_fifo_state.presented_log) ∧
    (apply_op c6_sticky_state (swapchain_op.release 0)).m_error_state ≠
      VkResult.success ∧
    acquire_next_image c6_sticky_state 0 0 alloc_env_ok VkResult.success =
      some (VkResult.errorSurfaceLost,
        { c6_sticky_state with m_free_image_semaphore := 0 }, none) :=
  ⟨(C6_page_flip_sticky_error c5_fifo_state VkResult.errorSurfaceLost
      (swapchain_op.release 0) 0 0 alloc_env_ok VkResult.success c5_fifo_state
      (by decide) (by decide) (by decide)).1,
   (C6_page_flip_sticky_error c6_sticky_state VkResult.errorSurfaceLost
      (swapchain_op.release 0) 0 0 alloc_env_ok VkResult.success c6_sticky_state
      (by decide) (by decide) (by decide)).2.1 (by decide),
   (C6_page_flip_sticky_error c6_sticky_state VkResult.errorSurfaceLost
      (swapchain_op.release 0) 0 0 alloc_env_ok VkResult.success
      { c6_sticky_state with m_free_image_semaphore := 0 }
      (by decide) (by decide) (by decide)).2.2 (by decide) (by decide)⟩

/- ------------------------------------------------------------------ -/
/- Claim C7: FIFO presentation order                                   -/
/- ------------------------------------------------------------------ -/

/-- Issue a sequence of queue-present notifications, collecting the result
of each. -/
def notify_run : swapchain_state → List pending_present_request →
    swapchain_state × List VkResult
  | s, [] => (s, [])
  | s, r :: rs =>
    let t := notify_presentation_engine s r
    let u := notify_run t.2 rs
    (u.1, t.1 :: u.2)

/-- Run k page-flip thread iterations in which every present-payload wait
succeeds. -/
def page_flip_run (s : swapchain_state) : Nat → swapchain_state
  | 0 => s
  | k + 1 => page_flip_run (page_flip_iteration s VkResult.success) k

/-- notify_presentation_engine with no descendant presenting, the
page-flip thread running and a non-full ring: the record is appended and
the page-flip semaphore posted. -/
theorem notify_enqueue (s : swapchain_state) (r : pending_present_request)
    (hdesc : s.descendant_started_presenting = false)
    (hrun : s.m_page_flip_thread_run = true)
    (hcap : s.m_pending_buffer_pool.length < s.pool_capacity) :
    notify_presentation_engine s r =
      (VkResult.success,
        { s with
          images := set_status_nth s.images r.image_index image_status.PENDING,
          m_started_presenting := true,
          m_pending_buffer_pool := s.m_pending_buffer_pool ++ [r],
          m_page_flip_semaphore := s.m_page_flip_semaphore + 1 }) := by
  have hpush : ring_buffer_push_back s.pool_capacity s.m_pending_buffer_pool r =
      some (s.m_pending_buffer_pool ++ [r]) := by
    simp [ring_buffer_push_back, hcap]
  simp [notify_presentation_engine, hdesc, hrun, hpush, set_status_nth]

/-- Issuing a sequence of presents appends exactly that sequence to the
ring, posts one page-flip token per record, succeeds for each record, and
touches neither the presented log nor the thread flags. -/
theorem notify_run_spec (rs : List pending_present_request) :
    ∀ s : swapchain_state, s.descendant_started_presenting = false →
      s.m_page_flip_thread_run = true →
      s.m_pending_buffer_pool.length + rs.length ≤ s.pool_capacity →
      (notify_run s rs).1.m_pending_buffer_pool = s.m_pending_buffer_pool ++ rs ∧
      (notify_run s rs).1.m_page_flip_semaphore =
        s.m_page_flip_semaphore + rs.length ∧
      (notify_run s rs).1.presented_log = s.presented_log ∧
      (notify_run s rs).2 = List.replicate rs.length VkResult.success := by
  induction rs with
  | nil => intro s _ _ _; exact ⟨by simp [notify_run], by simp [notify_run], rfl, rfl⟩
  | cons r rest ih =>
    intro s hdesc hrun hcap
    have hcap1 : s.m_pending_buffer_pool.length < s.pool_capacity := by
      simp at hcap
      omega
    have hne := notify_enqueue s r hdesc hrun hcap1
    have hrunfold : notify_run s (r :: rest) =
        ((notify_run (notify_presentation_engine s r).2 rest).1,
          (notify_presentation_engine s r).1 ::
            (notify_run (notify_presentation_engine s r).2 rest).2) := rfl
    rw [hrunfold, hne]
    dsimp only
    obtain ⟨hpool, hsem, hlog, hres⟩ :=
      ih { s with
        images := set_status_nth s.images r.image_index image_status.PENDING,
        m_started_presenting := true,
        m_pending_buffer_pool := s.m_pending_buffer_pool ++ [r],
        m_page_flip_semaphore := s.m_page_flip_semaphore + 1 }
        hdesc hrun (by simp at hcap ⊢; omega)
    refine ⟨?_, ?_, hlog, ?_⟩
    · rw [hpool]
      simp
    · rw [hsem]
      have hproj : ({ s with
          images := set_status_nth s.images r.image_index image_status.PENDING,
          m_started_presenting := true,
          m_pending_buffer_pool := s.m_pending_buffer_pool ++ [r],
          m_page_flip_semaphore := s.m_page_flip_semaphore + 1 } :
            swapchain_state).m_page_flip_semaphore = s.m_page_flip_semaphore + 1 := rfl
      rw [hproj]
      simp only [List.length_cons]
      omega
    · rw [hres]
      rfl

/-- Draining a pool of q pending records with q page-flip tokens and all
payload waits succeeding presents exactly q, oldest first. -/
theorem page_flip_run_fifo (q : List pending_present_request) :
    ∀ s : swapchain_state, s.m_pending_buffer_pool = q →
      s.m_page_flip_semaphore = q.length →
      (page_flip_run s q.length).presented_log = s.presented_log ++ q ∧
      (page_flip_run s q.length).m_pending_buffer_pool = [] := by
  induction q with
  | nil =>
    intro s hpool hsem
    exact ⟨by simp [page_flip_run], hpool⟩
  | cons r rest ih =>
    intro s hpool hsem
    have hiter : page_flip_iteration s VkResult.success =
        call_present
          { s with
            m_page_flip_semaphore := s.m_page_flip_semaphore - 1,
            m_pending_buffer_pool := rest } r := by
      unfold page_flip_iteration
      rw [if_neg (by rw [hsem]; simp)]
      dsimp only
      rw [hpool]
      dsimp only [ring_buffer_pop_front]
      rw [if_pos rfl]
    have hunfold : page_flip_run s (r :: rest).length =
        page_flip_run (page_flip_iteration s VkResult.success) rest.length := rfl
    rw [hunfold, hiter]
    obtain ⟨hlog, hpool2⟩ := ih (call_present
        { s with
          m_page_flip_semaphore := s.m_page_flip_semaphore - 1,
          m_pending_buffer_pool := rest } r)
      (by rw [call_present_pool])
      (by rw [call_present_page_flip_semaphore]; dsimp only; rw [hsem]; rfl)
    refine ⟨?_, hpool2⟩
    rw [hlog, call_present_presented_log]
    dsimp only
    simp

/-- Claim C7 (confirmed): in a non-mailbox, non-shared present mode with
the page-flip thread running, issuing the records rs through queue-present
succeeds for each, leaves the ring holding exactly rs in push order, and
the page-flip thread then presents exactly rs in that order, emptying the
ring: the presenter observes the records in FIFO order. -/
theorem C7_fifo_presentation_order (s : swapchain_state)
    (rs : List pending_present_request)
    (hdesc : s.descendant_started_presenting = false)
    (hrun : s.m_page_flip_thread_run = true)
    (hpool0 : s.m_pending_buffer_pool = [])
    (hsem0 : s.m_page_flip_semaphore = 0)
    (hcap : rs.length ≤ s.pool_capacity)
    (_hmode : s.m_present_mode ≠ VkPresentMode.mailbox ∧
      s.m_present_mode ≠ VkPresentMode.sharedDemandRefresh ∧
      s.m_present_mode ≠ VkPresentMode.sharedContinuousRefresh) :
    (notify_run s rs).2 = List.replicate rs.length VkResult.success ∧
    (notify_run s rs).1.m_pending_buffer_pool = rs ∧
    (page_flip_run (notify_run s rs).1 rs.length).presented_log =
      s.presented_log ++ rs ∧
    (page_flip_run (notify_run s rs).1 rs.length).m_pending_buffer_pool = [] := by
  obtain ⟨hpool, hsem, hlog, hres⟩ := notify_run_spec rs s hdesc hrun
    (by rw [hpool0]; simpa using hcap)
  have hpool2 : (notify_run s rs).1.m_pending_buffer_pool = rs := by
    rw [hpool, hpool0]
    rfl
  have hsem2 : (notify_run s rs).1.m_page_flip_semaphore = rs.length := by
    rw [hsem, hsem0]
    omega
  obtain ⟨hl, hp⟩ := page_flip_run_fifo rs (notify_run s rs).1 hpool2 hsem2
  exact ⟨hres, hpool2, by rw [hl, hlog], hp⟩

/-- Claim C7 witness: two concrete records presented through the concrete
two-image FIFO swapchain come back out in push order. -/
theorem C7_fifo_presentation_order_witness :
    (notify_run c4_state [⟨0, 1⟩, ⟨1, 2⟩]).2 =
      [VkResult.success, VkResult.success] ∧
    (notify_run c4_state [⟨0, 1⟩, ⟨1, 2⟩]).1.m_pending_buffer_pool =
      [⟨0, 1⟩, ⟨1, 2⟩] ∧
    (page_flip_run (notify_run c4_state [⟨0, 1⟩, ⟨1, 2⟩]).1 2).presented_log =
      [⟨0, 1⟩, ⟨1, 2⟩] ∧
    (page_flip_run (notify_run c4_state [⟨0, 1⟩, ⟨1, 2⟩]).1 2).m_pending_buffer_pool =
      [] :=
  ⟨(C7_fifo_presentation_order c4_state [⟨0, 1⟩, ⟨1, 2⟩] rfl rfl rfl rfl
      (by decide) (by decide)).1,
   (C7_fifo_presentation_order c4_state [⟨0, 1⟩, ⟨1, 2⟩] rfl rfl rfl rfl
      (by decide) (by decide)).2.1,
   (C7_fifo_presentation_order c4_state [⟨0, 1⟩, ⟨1, 2⟩] rfl rfl rfl rfl
      (by decide) (by decide)).2.2.1,
   (C7_fifo_presentation_order c4_state [⟨0, 1⟩, ⟨1, 2⟩] rfl rfl rfl rfl
      (by decide) (by decide)).2.2.2⟩

end WsiLayer
